import Mathlib

/-!
# Verification of the theta-e persistence layer (`thetae/db.py`, `thetae/util.py`)

A shallow embedding of the schema-driven persistence core of the theta-e
weather-forecast archive: the `Daily` / `TimeSeries` / `Forecast` domain
objects, the table-lifecycle function `db.init`, the generic writer `db._write`
and reader `db._read`, and the object-level adapters `writeDaily`,
`writeTimeSeries`, `writeForecast`, `readDaily`.

Conventions of the embedding:
* Python `datetime` values are modelled as an integer count of seconds from
  the proleptic-Gregorian day 0001-01-01 00:00:00 (the same calendar Python's
  `datetime` uses); `timedelta` values are plain integer second counts.
* Python values flowing through the persistence layer (strings, datetimes,
  `None`, numbers) are a `PyVal` sum.  Numbers are carried as exact rationals:
  no settled claim depends on float rounding, the layer only passes numeric
  cells through unchanged.
* Fallible code returns `Except PyErr`; an uncaught Python exception is an
  `Except.error`.  `try/except` clauses of the source become `match`es on the
  embedded result.
* Database side effects are explicit: each operation takes and returns the
  database state, together with the list of I/O events (connections opened,
  row batches written) it performed, so "raises before touching the database"
  is the statement that the event list of an erroring call is empty.
-/

/-- Python exception kinds distinguished by the persistence layer. -/
inductive PyErr where
  | typeError
  | valueError (msg : String)
  | attributeError (msg : String)
  | keyError (key : String)
  | indexError
  | ioError (msg : String)
  | operationalError (msg : String)
  deriving Repr, DecidableEq

/-- Whether an exception is a `ValueError` (what `except ValueError` catches). -/
def PyErr.isValueError : PyErr → Bool
  | .valueError _ => true
  | _ => false

-- ==========================================================================
-- Calendar arithmetic (the proleptic Gregorian calendar of Python datetime)
-- ==========================================================================

/-- Gregorian leap-year rule, as used by Python's `datetime`/`calendar`. -/
def gregIsLeap (y : Int) : Bool :=
  y % 4 == 0 && (y % 100 != 0 || y % 400 == 0)

/-- Number of days in month `m` (1-12) of year `y`. -/
def daysInMonth (y : Int) (m : Nat) : Nat :=
  [31, if gregIsLeap y then 29 else 28, 31, 30, 31, 30, 31, 31, 30, 31, 30, 31].getD (m - 1) 0

/-- Days in year `y` before the first day of month `m` (1-12). -/
def daysBeforeMonth (y : Int) (m : Nat) : Nat :=
  (List.range (m - 1)).foldl (fun acc i => acc + daysInMonth y (i + 1)) 0

/-- Day ordinal of the civil date `(y, m, d)`: days elapsed since 0001-01-01
(Python's `datetime.toordinal()` minus one). -/
def toOrdinal (y : Int) (m d : Nat) : Int :=
  365 * (y - 1) + (y - 1).fdiv 4 - (y - 1).fdiv 100 + (y - 1).fdiv 400
    + (daysBeforeMonth y m : Int) + (d : Int) - 1

/-- Seconds since 0001-01-01 00:00:00 of the datetime `(y, m, d, hh, mi, ss)`. -/
def toAbs (y : Int) (m d hh mi ss : Nat) : Int :=
  86400 * toOrdinal y m d + 3600 * (hh : Int) + 60 * (mi : Int) + (ss : Int)

/-- Civil date `(y, m, d)` from a day ordinal (days since 0001-01-01);
the standard era-based Gregorian conversion. -/
def civilFromOrdinal (z0 : Int) : Int × Nat × Nat :=
  -- shift so that day 0 is 0000-03-01 (the era origin of the conversion)
  let z : Int := z0 + 306
  let era : Int := z.fdiv 146097
  let doe : Int := z.emod 146097
  let yoe : Int := (doe - doe.fdiv 1460 + doe.fdiv 36524 - doe.fdiv 146096).fdiv 365
  let y' : Int := yoe + era * 400
  let doy : Int := doe - (365 * yoe + yoe.fdiv 4 - yoe.fdiv 100)
  let mp : Int := (5 * doy + 2).fdiv 153
  let d : Int := doy - (153 * mp + 2).fdiv 5 + 1
  let m : Int := mp + (if mp < 10 then 3 else -9)
  let y : Int := y' + (if m ≤ 2 then 1 else 0)
  (y, m.toNat, d.toNat)

/-- The year of a datetime given in absolute seconds (`datetime.year`). -/
def yearOf (t : Int) : Int := (civilFromOrdinal (t.fdiv 86400)).1

/-- Left-pad a numeral to two digits. -/
def pad2 (n : Nat) : String :=
  if n < 10 then "0" ++ toString n else toString n

/-- Left-pad a numeral to four digits. -/
def pad4 (n : Nat) : String :=
  if n < 10 then "000" ++ toString n
  else if n < 100 then "00" ++ toString n
  else if n < 1000 then "0" ++ toString n
  else toString n

/-- `str(datetime)`: the canonical `YYYY-MM-DD HH:MM:SS` rendering of a
datetime held as absolute seconds. -/
def fmtDateTime (t : Int) : String :=
  let od := t.fdiv 86400
  let sod := (t.emod 86400).toNat
  let c := civilFromOrdinal od
  pad4 c.1.toNat ++ "-" ++ pad2 c.2.1 ++ "-" ++ pad2 c.2.2 ++ " " ++
    pad2 (sod / 3600) ++ ":" ++ pad2 (sod % 3600 / 60) ++ ":" ++ pad2 (sod % 60)

-- ==========================================================================
-- strptime '%Y-%m-%d %H:%M:%S' (CPython _strptime regex semantics)
-- ==========================================================================

/-- Numeric value of a digit character. -/
def dval (c : Char) : Nat := c.toNat - '0'.toNat

/-- Match `%Y`: exactly four digits. -/
def pYear : List Char → Option (Nat × List Char)
  | a :: b :: c :: d :: rest =>
    if a.isDigit && b.isDigit && c.isDigit && d.isDigit then
      some (1000 * dval a + 100 * dval b + 10 * dval c + dval d, rest)
    else none
  | _ => none

/-- Match `%m` (regex `1[0-2]|0[1-9]|[1-9]`, eager alternation). -/
def pMonth : List Char → Option (Nat × List Char)
  | '1' :: b :: rest =>
    if '0' ≤ b && b ≤ '2' then some (10 + dval b, rest) else some (1, b :: rest)
  | '0' :: b :: rest =>
    if '1' ≤ b && b ≤ '9' then some (dval b, rest) else none
  | a :: rest =>
    if '1' ≤ a && a ≤ '9' then some (dval a, rest) else none
  | [] => none

/-- Match `%d` (regex `3[01]|[12]\d|0[1-9]|[1-9]`, eager alternation). -/
def pDay : List Char → Option (Nat × List Char)
  | '3' :: b :: rest =>
    if b == '0' || b == '1' then some (30 + dval b, rest) else some (3, b :: rest)
  | '1' :: b :: rest =>
    if b.isDigit then some (10 + dval b, rest) else some (1, b :: rest)
  | '2' :: b :: rest =>
    if b.isDigit then some (20 + dval b, rest) else some (2, b :: rest)
  | '0' :: b :: rest =>
    if '1' ≤ b && b ≤ '9' then some (dval b, rest) else none
  | a :: rest =>
    if '1' ≤ a && a ≤ '9' then some (dval a, rest) else none
  | [] => none

/-- Match `%H` (regex `2[0-3]|[0-1]\d|\d`, eager alternation). -/
def pHour : List Char → Option (Nat × List Char)
  | '2' :: b :: rest =>
    if '0' ≤ b && b ≤ '3' then some (20 + dval b, rest) else some (2, b :: rest)
  | '0' :: b :: rest =>
    if b.isDigit then some (dval b, rest) else some (0, b :: rest)
  | '1' :: b :: rest =>
    if b.isDigit then some (10 + dval b, rest) else some (1, b :: rest)
  | a :: rest =>
    if a.isDigit then some (dval a, rest) else none
  | [] => none

/-- Match `%M` / `%S` (regex `[0-5]\d|\d`, eager alternation). -/
def pMinSec : List Char → Option (Nat × List Char)
  | a :: b :: rest =>
    if '0' ≤ a && a ≤ '5' && b.isDigit then some (10 * dval a + dval b, rest)
    else if a.isDigit then some (dval a, b :: rest)
    else none
  | [a] => if a.isDigit then some (dval a, []) else none
  | [] => none

/-- Match one literal character. -/
def pLit (c : Char) : List Char → Option (List Char)
  | a :: rest => if a == c then some rest else none
  | [] => none

/-- `datetime.strptime(s, '%Y-%m-%d %H:%M:%S')`: `some` absolute seconds on a
full match that yields a constructible datetime, `none` when the call would
raise.  Follows CPython's per-directive regexes (so unpadded fields parse),
requires the whole string to be consumed, and applies `datetime`'s own range
check on the day of month and the `MINYEAR = 1` lower bound on the year. -/
def strptimeYmdHms (s : String) : Option Int := do
  let cs := s.data
  let (y, cs) ← pYear cs
  let cs ← pLit '-' cs
  let (mo, cs) ← pMonth cs
  let cs ← pLit '-' cs
  let (d, cs) ← pDay cs
  let cs ← pLit ' ' cs
  let (hh, cs) ← pHour cs
  let cs ← pLit ':' cs
  let (mi, cs) ← pMinSec cs
  let cs ← pLit ':' cs
  let (ss, cs) ← pMinSec cs
  if cs = [] && 1 ≤ y && d ≤ daysInMonth (y : Int) mo then
    pure (toAbs (y : Int) mo d hh mi ss)
  else none

-- ==========================================================================
-- Python values
-- ==========================================================================

/-- A Python value moving through the persistence layer. -/
inductive PyVal where
  | vnone
  | vstr (s : String)
  | vdt (t : Int)
  | vnum (q : ℚ)
  | vmethod (name : String)
  deriving Repr, DecidableEq

/-- `thetae.util.date_to_datetime`: `strptime` the canonical format, and on
*any* failure (unparseable string, or a non-string input making `strptime`
raise `TypeError`) return the input unchanged. -/
def date_to_datetime : PyVal → PyVal
  | .vstr s =>
    match strptimeYmdHms s with
    | some t => .vdt t
    | none => .vstr s
  | v => v

/-- `str(x)` for the values the layer renders (numeric rendering is not
claim-relevant and is given a plain exact form). -/
def pyStr : PyVal → String
  | .vnone => "None"
  | .vstr s => s
  | .vdt t => fmtDateTime t
  | .vnum q => if q.den = 1 then toString q.num else toString q.num ++ "/" ++ toString q.den
  | .vmethod n => "<bound method Daily." ++ n ++ ">"

/-- `thetae.util.date_to_string`: `str(date)` (the `except` branch of the
source is unreachable, `str` does not raise on these values). -/
def date_to_string (v : PyVal) : String := pyStr v

/-- `thetae.util.last_leap_year` at a datetime (its `date.year` is taken from
the absolute-seconds form): `(year - 1) - ((year - 1) % 4)`. -/
def last_leap_year (now : Int) : Int :=
  (yearOf now - 1) - (yearOf now - 1) % 4

/-- Python `str.upper()` (ASCII data of interest), written over the
character list so that it reduces inside the kernel. -/
def pyToUpper (s : String) : String := String.mk (s.data.map Char.toUpper)

-- ==========================================================================
-- Domain objects (thetae/util.py)
-- ==========================================================================

/-- A pandas `DataFrame` as the persistence layer uses it: named columns over
rows of cells (row `i`, column `j` is `rows[i][j]`). -/
structure Frame where
  cols : List String
  rows : List (List PyVal)
  deriving Repr, DecidableEq

/-- `thetae.util.TimeSeries`: station id, model label, data frame. -/
structure TimeSeriesObj where
  stid : String
  model : PyVal
  data : Frame
  deriving Repr, DecidableEq

/-- `TimeSeries(stid)`: fresh object with `model = None` and an empty frame. -/
def mkTimeSeries (stid : String) : TimeSeriesObj :=
  { stid := stid, model := .vnone, data := { cols := [], rows := [] } }

/-- `thetae.util.Daily`: station id, date, model label and the four
measurements, each as the Python value held in the attribute. -/
structure DailyObj where
  stid : String
  date : PyVal
  model : PyVal
  high : PyVal
  low : PyVal
  wind : PyVal
  rain : PyVal
  deriving Repr, DecidableEq

/-- `Daily(stid, date)`: fresh object, every measurement `None`. -/
def mkDaily (stid : String) (date : PyVal) : DailyObj :=
  { stid := stid, date := date, model := .vnone,
    high := .vnone, low := .vnone, wind := .vnone, rain := .vnone }

/-- Attribute dictionary of a `Daily` instance: the instance attributes set in
`__init__` followed by the class attributes (its two methods).  An attribute
name outside this table does not exist on the object. -/
def DailyObj.attrs (d : DailyObj) : List (String × PyVal) :=
  [("stid", .vstr d.stid), ("date", d.date), ("model", d.model),
   ("high", d.high), ("low", d.low), ("wind", d.wind), ("rain", d.rain),
   ("setValues", .vmethod "setValues"), ("getValues", .vmethod "getValues")]

/-- `getattr(daily, name, default)`. -/
def DailyObj.getattrD (d : DailyObj) (name : String) (default : PyVal) : PyVal :=
  match (d.attrs.find? (fun p => p.1 == name)) with
  | some p => p.2
  | none => default

/-- `thetae.util.Forecast`: station id, model, date, and the two children. -/
structure ForecastObj where
  stid : String
  model : PyVal
  date : PyVal
  timeseries : TimeSeriesObj
  daily : DailyObj
  deriving Repr, DecidableEq

/-- `Forecast(stid, model, date)`: builds both children from the same station
id and assigns them the same model label. -/
def mkForecast (stid : String) (model : PyVal) (date : PyVal) : ForecastObj :=
  { stid := stid, model := model, date := date,
    timeseries := { mkTimeSeries stid with model := model },
    daily := { mkDaily stid date with model := model } }

/-- `Forecast.setModel`: changes the model name in the Forecast object and in
the embedded TimeSeries and Daily. -/
def ForecastObj.setModel (f : ForecastObj) (model : PyVal) : ForecastObj :=
  { f with model := model,
           timeseries := { f.timeseries with model := model },
           daily := { f.daily with model := model } }

-- ==========================================================================
-- SQLite database state
-- ==========================================================================

/-- One physical SQLite table: its name, its column names in declaration
order, and its rows. -/
structure STable where
  name : String
  cols : List String
  rows : List (List PyVal)
  deriving Repr, DecidableEq

/-- The tables of one database file. -/
abbrev DbState := List STable

/-- One environment of databases, keyed by logical database name (a missing
key is a database file `sqlite3.connect` would create empty). -/
abbrev DbEnv := List (String × DbState)

/-- Tables of database `name` in the environment. -/
def dbGet (env : DbEnv) (name : String) : DbState :=
  match List.find? (fun p => p.1 == name) env with
  | some p => p.2
  | none => []

/-- Replace the tables of database `name`. -/
def dbSet (env : DbEnv) (name : String) (db : DbState) : DbEnv :=
  match env with
  | [] => [(name, db)]
  | p :: rest => if p.1 == name then (name, db) :: rest else p :: dbSet rest name db

/-- Names of the tables of a database (`SELECT name FROM sqlite_master`). -/
def tableNames (db : DbState) : List String := db.map (·.name)

/-- First table with the given name. -/
def dbFind (db : DbState) (name : String) : Option STable :=
  db.find? (fun t => t.name == name)

/-- Bytewise (codepoint) lexicographic `≤` on character lists, as SQLite's
BINARY collation compares TEXT values. -/
def charListLe : List Char → List Char → Bool
  | [], _ => true
  | _ :: _, [] => false
  | a :: as, b :: bs =>
    if a.toNat < b.toNat then true
    else if b.toNat < a.toNat then false
    else charListLe as bs

/-- Bytewise string `≤`. -/
def strLe (a b : String) : Bool := charListLe a.data b.data

/-- SQLite's cross-type ordering for stored values as the layer encounters
them: NULL < numeric < TEXT (text compared bytewise); spurious kinds sort
last.  Used by `ORDER BY ... DESC LIMIT 1`. -/
def sqliteLe (a b : PyVal) : Bool :=
  match a, b with
  | .vnone, _ => true
  | _, .vnone => false
  | .vnum x, .vnum y => !(Rat.blt y x)
  | .vnum _, _ => true
  | _, .vnum _ => false
  | .vstr x, .vstr y => strLe x y
  | .vstr _, _ => true
  | _, .vstr _ => false
  | .vdt x, .vdt y => decide (x ≤ y)
  | .vdt _, _ => true
  | _, .vdt _ => false
  | .vmethod x, .vmethod y => strLe x y

/-- Index of a column in a table, by SQLite's case-insensitive name match. -/
def colIndex (cols : List String) (name : String) : Option Nat :=
  cols.findIdx? (fun c => pyToUpper c == pyToUpper name)

/-- The cell of column `i` in a row (`NULL` when the row is short). -/
def cellAt (row : List PyVal) (i : Nat) : PyVal := row.getD i .vnone

/-- `SELECT col FROM t ORDER BY col DESC LIMIT 1` followed by `fetchone()`:
`none` when the table has no rows (so `fetchone()` returns `None` and the
subscript raises), otherwise the greatest stored value of the column. -/
def maxIndexVal (t : STable) (key : String) : Option PyVal :=
  match colIndex t.cols key with
  | none => none  -- no such column: the SELECT itself raises, caught by the caller
  | some i =>
    match t.rows with
    | [] => none
    | r :: rs => some (rs.foldl (fun acc row =>
        if sqliteLe acc (cellAt row i) then cellAt row i else acc) (cellAt r i))

/-- Database side effects an operation performed, in order. -/
inductive Event where
  | connOpen (database : String)
  | rowsWritten (table : String) (n : Nat)
  deriving Repr, DecidableEq

-- ==========================================================================
-- Schema and configuration (thetae/schemas, config consumed by db.py)
-- ==========================================================================

/-- The ordered `(column name, sql type)` pairs of one table type. -/
abbrev SchemaPairs := List (String × String)

/-- A schema: ordered mapping from table-type key to its column pairs
(Python dicts preserve insertion order). -/
abbrev Schema := List (String × SchemaPairs)

/-- One entry of `config['DataBinding']`: the schema object named by
`['schema']` (already resolved, `get_object` is a module lookup) and the
logical database name `['database']`. -/
structure BindingCfg where
  schema : Schema
  database : String
  deriving Repr, DecidableEq

/-- The parts of the config dictionary the persistence core consumes. -/
structure Config where
  dataBindings : List (String × BindingCfg)
  /-- the keys of `config['Databases']` (what `connection` checks) -/
  databases : List String
  /-- the keys of `config['Stations']` -/
  stations : List String
  deriving Repr, DecidableEq

/-- `config['DataBinding'][name]`, raising `KeyError` when absent. -/
def lookupBinding (cfg : Config) (name : String) : Except PyErr BindingCfg :=
  match cfg.dataBindings.find? (fun p => p.1 == name) with
  | some p => .ok p.2
  | none => .error (.keyError name)

/-- `schema[key]`, raising `KeyError` when absent. -/
def lookupSchema (schema : Schema) (key : String) : Except PyErr SchemaPairs :=
  match schema.find? (fun p => p.1 == key) with
  | some p => .ok p.2
  | none => .error (.keyError key)

/-- `connection(config, database)` succeeds iff the database is declared
under `config['Databases']` (directory creation and the sqlite file open are
host-filesystem effects outside the model and taken to succeed). -/
def connectionOk (cfg : Config) (database : String) : Bool :=
  cfg.databases.contains database

/-- The `"%s %s" % _type` fragments of the CREATE TABLE statement: every
schema pair verbatim, the `'PRIMARY KEY'` pseudo-column included. -/
def columnDefs (pairs : SchemaPairs) : List String :=
  pairs.map (fun p => p.1 ++ " " ++ p.2)

/-- `sqltypestr` of `db.init`: the joined column definitions. -/
def sqltypestr (pairs : SchemaPairs) : String :=
  String.intercalate ", " (columnDefs pairs)

/-- The full `CREATE TABLE` statement text built by `db.init`. -/
def createStmt (table : String) (pairs : SchemaPairs) : String :=
  "CREATE TABLE " ++ table ++ " (" ++ sqltypestr pairs ++ ");"

/-- The physical table that executing that statement creates: SQLite parses a
definition whose name is the keyword pair `PRIMARY KEY` as a *table
constraint*, so it contributes no column; every other pair contributes its
column name.  The new table has no rows. -/
def createdTable (table : String) (pairs : SchemaPairs) : STable :=
  { name := table,
    cols := (pairs.filter (fun p => pyToUpper p.1 != "PRIMARY KEY")).map (·.1),
    rows := [] }

/-- `DROP TABLE` followed by the `CREATE TABLE` of `db.init`'s reset path. -/
def dropCreate (db : DbState) (table : String) (pairs : SchemaPairs) : DbState :=
  (db.eraseP (fun t => t.name == table)) ++ [createdTable table pairs]

-- ==========================================================================
-- db.init (table lifecycle)
-- ==========================================================================

/-- One iteration of `db.init`'s per-table loop for station `stidU` (already
upper-cased), table-type `key` with column pairs `pairs` whose indexing
(date) column is `dateKey`.  Returns the updated database and whether this
table forced `add_site`.

Mirrors `db.py` lines 101-135: a missing table is created (`add_site`); an
existing table's newest indexing value is fetched (`except` on an empty table
or a failing SELECT leaves `last_dt = None`) and passed through
`date_to_datetime`; then `last_dt is None or (time_now - last_dt > recent)`
decides staleness, where subtracting a non-datetime `last_dt` from
`time_now` raises `TypeError` (this comparison is outside the `try`). -/
def tableStep (reset_old : Bool) (now : Int) (stidU key : String)
    (pairs : SchemaPairs) (dateKey : String) (db : DbState) :
    Except PyErr (DbState × Bool) :=
  let table := stidU ++ "_" ++ key
  if (tableNames db).contains table then
    let recent : Int :=
      if table != stidU ++ "_CLIMO" then 30 * 86400
      else now - 86400 * toOrdinal (last_leap_year now) 12 31
    let last_dt : PyVal :=
      match dbFind db table with
      | none => .vnone
      | some t =>
        match maxIndexVal t dateKey with
        | none => .vnone  -- empty table (or unreadable column): `except` path
        | some v => date_to_datetime v
    match last_dt with
    | .vnone =>
      if reset_old then .ok (dropCreate db table pairs, true) else .ok (db, true)
    | .vdt t =>
      if now - t > recent then
        if reset_old then .ok (dropCreate db table pairs, true) else .ok (db, true)
      else .ok (db, false)
    | _ => .error .typeError  -- `time_now - last_dt` on a non-datetime
  else
    .ok (db ++ [createdTable table pairs], true)

/-- The per-station table loop of `db.init`, threading `add_site`. -/
def tablesLoop (reset_old : Bool) (now : Int) (stidU : String) :
    List ((String × SchemaPairs) × String) → DbState → Bool →
    Except PyErr (DbState × Bool)
  | [], db, add_site => .ok (db, add_site)
  | (e, dateKey) :: rest, db, add_site => do
    let r ← tableStep reset_old now stidU e.1 e.2 dateKey db
    tablesLoop reset_old now stidU rest r.1 (add_site || r.2)

/-- `date_keys` of `db.init`: the first column name of every schema entry (an
entry with no columns makes the `schema[key][0]` subscript raise
`IndexError`). -/
def dateKeysLoop : Schema → Except PyErr (List String)
  | [] => .ok []
  | e :: rest =>
    match e.2.head? with
    | some c => do
      let more ← dateKeysLoop rest
      pure (c.1 :: more)
    | none => .error .indexError

/-- One station of `db.init`'s station loop: computes `date_keys` and folds
the table loop over the schema entries. -/
def stationStep (reset_old : Bool) (now : Int) (schema : Schema)
    (stid : String) (db : DbState) : Except PyErr (DbState × Bool) := do
  let dateKeys ← dateKeysLoop schema
  tablesLoop reset_old now (pyToUpper stid) (schema.zip dateKeys) db false

/-- The station loop of `db.init`: after each station, the station id is
appended to `add_sites` when some table was missing or stale and the id is
not already present. -/
def stationsLoop (reset_old : Bool) (now : Int) (schema : Schema) :
    List String → DbState → List String → Except PyErr (DbState × List String)
  | [], db, add_sites => .ok (db, add_sites)
  | stid :: rest, db, add_sites => do
    let r ← stationStep reset_old now schema stid db
    let add_sites' :=
      if r.2 && !(add_sites.contains stid) then add_sites ++ [stid] else add_sites
    stationsLoop reset_old now schema rest r.1 add_sites'

/-- The data-binding loop of `db.init`: a connection failure raises
`IOError`; otherwise the station loop runs against that binding's database. -/
def bindingsLoop (cfg : Config) (reset_old : Bool) (now : Int) :
    List (String × BindingCfg) → DbEnv → List String →
    Except PyErr (DbEnv × List String)
  | [], env, add_sites => .ok (env, add_sites)
  | (_, b) :: rest, env, add_sites =>
    if connectionOk cfg b.database then do
      let r ← stationsLoop reset_old now b.schema cfg.stations (dbGet env b.database) add_sites
      bindingsLoop cfg reset_old now rest (dbSet env b.database r.1) r.2
    else
      Except.error (.ioError ("Error: db.init cannot connect to database " ++ b.database))

/-- `db.init(config, reset_old)` at UTC time `now` over database environment
`env`: returns the stations needing historical backfill and the updated
environment. -/
def dbInit (cfg : Config) (reset_old : Bool) (now : Int) (env : DbEnv) :
    Except PyErr (List String × DbEnv) := do
  let r ← bindingsLoop cfg reset_old now cfg.dataBindings env []
  pure (r.2, r.1)

-- ==========================================================================
-- db._write (generic writer)
-- ==========================================================================

/-- An element of the `values` argument of `db._write`: a tuple of cells, or
some other Python object (which the tuple check rejects). -/
inductive PyRow where
  | tup (cells : List PyVal)
  | nontup
  deriving Repr, DecidableEq

/-- Length of a `tup` row. -/
def PyRow.len : PyRow → Nat
  | .tup cells => cells.length
  | .nontup => 0

/-- The row-shape loop of `db._write`: threading `row_len` (initially 0),
each row must be a tuple and, unless `row_len` is still 0, have length
`row_len`; the accepted length becomes the new `row_len`. -/
def rowLenLoop : List PyRow → Nat → Except PyErr Nat
  | [], row_len => .ok row_len
  | .nontup :: _, _ => .error .typeError  -- 'each row of values must be a tuple.'
  | .tup cells :: rest, row_len =>
    if row_len == 0 || row_len == cells.length then
      rowLenLoop rest cells.length
    else
      .error (.valueError "db._write: all rows of values must have the same length.")

/-- `db._write(config, values, database, table, replace)`.

The `type(values)` check cannot fire (the argument is a list by type).  After
the shape checks, a connection is opened (an undeclared database makes
`connection` return `None` and `conn.cursor()` raise `AttributeError`) and
`executemany` runs: a missing table or a row whose arity differs from the
table's column count is a database-level error raised before the commit, so
the state is unchanged; otherwise all rows are stored and committed.  Both
`REPLACE` and `INSERT` are modelled as appending the rows: no settled claim
involves a key collision, and the tables the claims write to are fresh. -/
def _write (cfg : Config) (values : List PyRow) (database table : String)
    (replace : Bool) (env : DbEnv) : Except PyErr DbEnv × List Event :=
  let _ := replace
  if values.length == 0 then
    (.error (.valueError "db._write: no values to write."), [])
  else
    match rowLenLoop values 0 with
    | .error e => (.error e, [])
    | .ok _row_len =>
      if connectionOk cfg database then
        let db := dbGet env database
        match dbFind db table with
        | none =>
          (.error (.operationalError ("no such table: " ++ table)), [.connOpen database])
        | some t =>
          if values.all (fun r => r.len == t.cols.length) then
            let newRows := values.filterMap (fun r =>
              match r with | .tup cells => some cells | .nontup => none)
            let db' := db.map (fun tb =>
              if tb.name == table then { tb with rows := tb.rows ++ newRows } else tb)
            (.ok (dbSet env database db'),
             [.connOpen database, .rowsWritten table values.length])
          else
            -- `executemany` rejects a row of the wrong arity; nothing commits
            (.error (.operationalError "incorrect number of bindings supplied"),
             [.connOpen database])
      else
        (.error (.attributeError "NoneType object has no attribute cursor"), [])

-- ==========================================================================
-- writeDaily / writeTimeSeries / writeForecast
-- ==========================================================================

/-- A `Daily`-or-list argument (the source dispatches on `type(daily) is list`). -/
inductive DailyArg where
  | one (d : DailyObj)
  | many (ds : List DailyObj)
  deriving Repr, DecidableEq

/-- `daily_to_row` of `db.writeDaily`: one cell per schema column, in order —
the datetime column gets the date string, a model column gets the model
label, a `'PRIMARY KEY'` column is skipped, and any other column reads the
like-named attribute of the `Daily` (missing attribute becomes `None`). -/
def daily_to_row (daily : DailyObj) (datestr : String) (model : PyVal) :
    List String → List PyVal
  | [] => []
  | column :: rest =>
    if pyToUpper column == "DATETIME" then
      .vstr datestr :: daily_to_row daily datestr model rest
    else if pyToUpper column == "MODEL" then
      model :: daily_to_row daily datestr model rest
    else if pyToUpper column != "PRIMARY KEY" then
      daily.getattrD column .vnone :: daily_to_row daily datestr model rest
    else
      daily_to_row daily datestr model rest

/-- The list branch of `db.writeDaily`: every `Daily` must carry the station
id of the first element, else `ValueError`; each is converted to a row. -/
def dailyRowsLoop (stid : String) (columns : List String) :
    List DailyObj → Except PyErr (List (List PyVal))
  | [] => .ok []
  | d :: rest =>
    if stid != d.stid then
      .error (.valueError "db.writeDaily error: all forecasts in list must have the same station id.")
    else do
      let rows ← dailyRowsLoop stid columns rest
      pure (daily_to_row d (date_to_string d.date) d.model columns :: rows)

/-- Rows and station id of a `writeDaily` argument (`daily[0]` on an empty
list raises `IndexError`). -/
def dailyToSql (columns : List String) : DailyArg →
    Except PyErr (List (List PyVal) × String)
  | .one d => .ok ([daily_to_row d (date_to_string d.date) d.model columns], d.stid)
  | .many [] => .error .indexError
  | .many (d0 :: ds) => do
    let rows ← dailyRowsLoop d0.stid columns (d0 :: ds)
    pure (rows, d0.stid)

/-- `db.writeDaily(config, daily, data_binding, table_type)`. -/
def writeDaily (cfg : Config) (daily : DailyArg) (data_binding table_type : String)
    (env : DbEnv) : Except PyErr DbEnv × List Event :=
  match (do
      let b ← lookupBinding cfg data_binding
      let pairs ← lookupSchema b.schema (pyToUpper table_type)
      let r ← dailyToSql (pairs.map (·.1)) daily
      pure (b, r) : Except PyErr (BindingCfg × (List (List PyVal) × String))) with
  | .error e => (.error e, [])
  | .ok (b, rows, stid) =>
    _write cfg (rows.map PyRow.tup) b.database
      (pyToUpper stid ++ "_" ++ pyToUpper table_type) true env

/-- A `TimeSeries`-or-list argument of `writeTimeSeries`. -/
inductive TsArg where
  | one (ts : TimeSeriesObj)
  | many (tss : List TimeSeriesObj)
  deriving Repr, DecidableEq

/-- The per-row date string of `hourly_to_row`:
`date_to_string(pd_row.DATETIME.to_pydatetime())`.  A frame without a
`DATETIME` column, or a cell that is not a timestamp (no `to_pydatetime`
attribute), raises `AttributeError` — the source catches only `TypeError`
here. -/
def hourlyDatestr (frameCols : List String) (row : List PyVal) :
    Except PyErr PyVal :=
  match frameCols.findIdx? (fun c => c == "DATETIME") with
  | none => .error (.attributeError "Pandas has no attribute DATETIME")
  | some i =>
    match cellAt row i with
    | .vdt t => .ok (.vstr (date_to_string (.vdt t)))
    | _ => .error (.attributeError "object has no attribute to_pydatetime")

/-- One cell of `hourly_to_row`'s inner column loop:
`float(getattr(pd_row, col))` with `AttributeError → None` and
`TypeError/ValueError → the raw value`.  (Coercion of numeric *strings* by
`float` is not modelled — no settled claim depends on the coerced value;
numbers stay numbers and every other value falls to the raw-value branch.) -/
def hourlyCellVal (frameCols : List String) (row : List PyVal) (col : String) : PyVal :=
  match frameCols.findIdx? (fun c => c == col) with
  | none => .vnone
  | some i =>
    match cellAt row i with
    | .vnum q => .vnum q
    | v => v

/-- The column loop of `hourly_to_row` for one pandas row. -/
def hourlyRowCells (frameCols : List String) (row : List PyVal)
    (datestr model : PyVal) : List String → List PyVal
  | [] => []
  | col :: rest =>
    if col == "DATETIME" then
      datestr :: hourlyRowCells frameCols row datestr model rest
    else if col == "MODEL" then
      model :: hourlyRowCells frameCols row datestr model rest
    else if col != "PRIMARY KEY" then
      hourlyCellVal frameCols row col :: hourlyRowCells frameCols row datestr model rest
    else
      hourlyRowCells frameCols row datestr model rest

/-- The row loop of `hourly_to_row`. -/
def hourlyRowsLoop (frameCols : List String) (cols : List String) (model : PyVal) :
    List (List PyVal) → Except PyErr (List (List PyVal))
  | [] => .ok []
  | row :: rest => do
    let datestr ← hourlyDatestr frameCols row
    let more ← hourlyRowsLoop frameCols cols model rest
    pure (hourlyRowCells frameCols row datestr model cols :: more)

/-- `hourly_to_row(hourly, model, cols)` of `db.writeTimeSeries`: both the
frame's columns and the schema columns are upper-cased, then every frame row
becomes one SQL row. -/
def hourly_to_row (hourly : Frame) (model : PyVal) (cols : List String) :
    Except PyErr (List (List PyVal)) :=
  hourlyRowsLoop (hourly.cols.map pyToUpper) (cols.map pyToUpper)
    model hourly.rows

/-- The list branch of `db.writeTimeSeries`: station check against the first
element's id, then conversion, concatenating the series. -/
def tsRowsLoop (stid : String) (columns : List String) :
    List TimeSeriesObj → Except PyErr (List (List PyVal))
  | [] => .ok []
  | ts :: rest =>
    if stid != ts.stid then
      .error (.valueError "db.writeTimeSeries error: all forecasts in list must have the same station id.")
    else do
      let series ← hourly_to_row ts.data ts.model columns
      let more ← tsRowsLoop stid columns rest
      pure (series ++ more)

/-- Rows and station id of a `writeTimeSeries` argument. -/
def tsToSql (columns : List String) : TsArg →
    Except PyErr (List (List PyVal) × String)
  | .one ts => do
    let series ← hourly_to_row ts.data ts.model columns
    pure (series, ts.stid)
  | .many [] => .error .indexError
  | .many (t0 :: ts) => do
    let rows ← tsRowsLoop t0.stid columns (t0 :: ts)
    pure (rows, t0.stid)

/-- `db.writeTimeSeries(config, timeseries, data_binding, table_type)`. -/
def writeTimeSeries (cfg : Config) (timeseries : TsArg)
    (data_binding table_type : String) (env : DbEnv) :
    Except PyErr DbEnv × List Event :=
  match (do
      let b ← lookupBinding cfg data_binding
      let pairs ← lookupSchema b.schema (pyToUpper table_type)
      let r ← tsToSql (pairs.map (·.1)) timeseries
      pure (b, r) : Except PyErr (BindingCfg × (List (List PyVal) × String))) with
  | .error e => (.error e, [])
  | .ok (b, rows, stid) =>
    _write cfg (rows.map PyRow.tup) b.database
      (pyToUpper stid ++ "_" ++ pyToUpper table_type) true env

/-- A `Forecast`-or-list argument of `writeForecast`. -/
inductive FcArg where
  | one (f : ForecastObj)
  | many (fs : List ForecastObj)
  deriving Repr, DecidableEq

/-- The daily half of a `writeForecast` argument (the `type(forecast) is
list` dispatch). -/
def FcArg.dailyHalf : FcArg → DailyArg
  | .one f => .one f.daily
  | .many fs => .many (fs.map (·.daily))

/-- The timeseries half of a `writeForecast` argument. -/
def FcArg.tsHalf : FcArg → TsArg
  | .one f => .one f.timeseries
  | .many fs => .many (fs.map (·.timeseries))

/-- `db.writeForecast(config, forecast)`: writes the daily halves to
`DAILY_FORECAST` of the `'forecast'` binding, then the timeseries halves to
`HOURLY_FORECAST` inside `try: ... except ValueError: pass` — a `ValueError`
from the timeseries write is logged and swallowed, leaving the already
committed daily write in place. -/
def writeForecast (cfg : Config) (forecast : FcArg) (env : DbEnv) :
    Except PyErr DbEnv × List Event :=
  match writeDaily cfg forecast.dailyHalf "forecast" "DAILY_FORECAST" env with
  | (.error e, ev) => (.error e, ev)
  | (.ok env1, ev1) =>
    match writeTimeSeries cfg forecast.tsHalf "forecast" "HOURLY_FORECAST" env1 with
    | (.error e, ev2) =>
      if e.isValueError then (.ok env1, ev1 ++ ev2) else (.error e, ev1 ++ ev2)
    | (.ok env2, ev2) => (.ok env2, ev1 ++ ev2)

-- ==========================================================================
-- db._read (generic reader) and readDaily
-- ==========================================================================

/-- `datetime + timedelta(seconds)`: defined for datetimes, `TypeError`
otherwise (e.g. an unparseable date string that survived
`date_to_datetime`). -/
def addTd (v : PyVal) (sec : Int) : Except PyErr PyVal :=
  match v with
  | .vdt t => .ok (.vdt (t + sec))
  | _ => .error .typeError

/-- The date-window defaulting of `db._read` (lines 252-263): both arguments
pass through `date_to_datetime`; a missing `start` is `end - 24h`, a missing
`end` is `start + 24h`, both missing give `utcnow() .. +24h`; then both ends
are rendered with `date_to_string` as the SQL parameters. -/
def readWindow (start0 end0 : PyVal) (now : Int) :
    Except PyErr (String × String) := do
  let s := date_to_datetime start0
  let e := date_to_datetime end0
  if s == .vnone && e != .vnone then
    let s' ← addTd e (-(24 * 3600))
    pure (date_to_string s', date_to_string e)
  else if s != .vnone && e == .vnone then
    let e' ← addTd s (24 * 3600)
    pure (date_to_string s, date_to_string e')
  else if s == .vnone && e == .vnone then
    pure (date_to_string (.vdt now), date_to_string (.vdt (now + 24 * 3600)))
  else
    pure (date_to_string s, date_to_string e)

/-- SQL `cell >= param` under SQLite three-valued logic: a NULL operand never
satisfies the comparison; otherwise the cross-type total order decides. -/
def whereGe (cell param : PyVal) : Bool :=
  cell != .vnone && param != .vnone && sqliteLe param cell

/-- SQL `cell <= param`. -/
def whereLe (cell param : PyVal) : Bool :=
  cell != .vnone && param != .vnone && sqliteLe cell param

/-- SQL `cell = param`. -/
def whereEq (cell param : PyVal) : Bool :=
  cell != .vnone && param != .vnone && cell == param

/-- Ascending insertion by the `DATETIME` cell (the `ORDER BY ... ASC`). -/
def insertByKey (i : Nat) (r : List PyVal) :
    List (List PyVal) → List (List PyVal)
  | [] => [r]
  | x :: xs =>
    if sqliteLe (cellAt r i) (cellAt x i) then r :: x :: xs
    else x :: insertByKey i r xs

/-- Sort rows ascending on column `i`. -/
def sortRowsBy (i : Nat) (rows : List (List PyVal)) : List (List PyVal) :=
  rows.foldr (insertByKey i) []

/-- Drop a named column from a frame (pandas `drop(name, axis=1)`). -/
def dropColumn (f : Frame) (name : String) : Except PyErr Frame :=
  match f.cols.findIdx? (fun c => c == name) with
  | none => .error (.keyError name)
  | some i =>
    .ok { cols := f.cols.eraseIdx i, rows := f.rows.map (fun r => r.eraseIdx i) }

/-- `db._read(config, database, table, model, start_date, end_date)` at UTC
time `now`: window defaulting, the inclusive range scan on `DATETIME`
(optionally filtered by `MODEL = model.upper()`), the absent-marker `None`
for an empty result, the `PRAGMA`-derived upper-cased column names, and the
drop of the `MODEL` column when a model filter was given. -/
def _read (cfg : Config) (database table : String) (model : Option String)
    (start0 end0 : PyVal) (now : Int) (env : DbEnv) :
    Except PyErr (Option Frame) × List Event :=
  match readWindow start0 end0 now with
  | .error e => (.error e, [])
  | .ok (start, stop) =>
    if connectionOk cfg database then
      let db := dbGet env database
      match dbFind db table with
      | none =>
        (.error (.operationalError ("no such table: " ++ table)), [.connOpen database])
      | some t =>
        match colIndex t.cols "DATETIME" with
        | none =>
          (.error (.operationalError "no such column: DATETIME"), [.connOpen database])
        | some di =>
          let ranged := t.rows.filter (fun r =>
            whereGe (cellAt r di) (.vstr start) && whereLe (cellAt r di) (.vstr stop))
          let selected : Except PyErr (List (List PyVal)) :=
            match model with
            | none => .ok ranged
            | some m =>
              match colIndex t.cols "MODEL" with
              | none => .error (.operationalError "no such column: MODEL")
              | some mi => .ok (ranged.filter (fun r =>
                  whereEq (cellAt r mi) (.vstr (pyToUpper m))))
          match selected with
          | .error e => (.error e, [.connOpen database])
          | .ok sel =>
            let values := sortRowsBy di sel
            if values.length == 0 then (.ok none, [.connOpen database])
            else
              let columns := t.cols.map pyToUpper
              let data : Frame := { cols := columns, rows := values }
              match model with
              | none => (.ok (some data), [.connOpen database])
              | some _ =>
                match dropColumn data "MODEL" with
                | .error e => (.error e, [.connOpen database])
                | .ok data' => (.ok (some data'), [.connOpen database])
    else
      (.error (.attributeError "NoneType object has no attribute cursor"), [])

/-- Result shape of `readDaily`: one `Daily` or a list. -/
inductive DailyRes where
  | one (d : DailyObj)
  | many (ds : List DailyObj)
  deriving Repr, DecidableEq

/-- The object-building loop of `db.readDaily`.  Each row yields
`Daily(stid, date_to_datetime(row['DATETIME']))`, after which the source
calls `daily.set_values(...)`: resolving that attribute on the `Daily`
instance happens before the argument cells are read, and `util.Daily`'s
attribute table (`DailyObj.attrs`) has no entry named `set_values` — only
`setValues` — so the lookup decides how the loop continues.  (In the branch
where the attribute did exist the loop would assign the four measurement
cells and the model and keep the object; for the class as written that
branch is unreachable.) -/
def readDailyLoop (stid : String) (model : Option String) (cols : List String) :
    List (List PyVal) → Except PyErr (List DailyObj)
  | [] => .ok []
  | row :: rest =>
    match cols.findIdx? (fun c => c == "DATETIME") with
    | none => .error (.keyError "DATETIME")
    | some i =>
      let daily := mkDaily stid (date_to_datetime (cellAt row i))
      match daily.attrs.find? (fun p => p.1 == "set_values") with
      | none => .error (.attributeError "Daily object has no attribute set_values")
      | some _ => do
        let getCol := fun (name : String) =>
          match cols.findIdx? (fun c => c == name) with
          | none => PyVal.vnone
          | some j => cellAt row j
        let daily' := { daily with
          high := getCol "HIGH", low := getCol "LOW",
          wind := getCol "WIND", rain := getCol "RAIN",
          model := match model with | some m => .vstr m | none => .vnone }
        let more ← readDailyLoop stid model cols rest
        pure (daily' :: more)

/-- `db.readDaily(config, stid, data_binding, table_type, model, start_date,
end_date, force_list)` at UTC time `now`. -/
def readDaily (cfg : Config) (stid data_binding table_type : String)
    (model : Option String) (start0 end0 : PyVal) (force_list : Bool)
    (now : Int) (env : DbEnv) : Except PyErr DailyRes × List Event :=
  match lookupBinding cfg data_binding with
  | .error e => (.error e, [])
  | .ok b =>
    let table := pyToUpper stid ++ "_" ++ pyToUpper table_type
    match _read cfg b.database table model start0 end0 now env with
    | (.error e, ev) => (.error e, ev)
    | (.ok none, ev) => (.error (.valueError "db.readDaily error: no data retrieved."), ev)
    | (.ok (some data), ev) =>
      match readDailyLoop stid model data.cols data.rows with
      | .error e => (.error e, ev)
      | .ok daily_list =>
        if data.rows.length == 0 then
          (.error (.valueError "db.readDaily error: no data found."), ev)
        else if data.rows.length > 1 || force_list then
          (.ok (.many daily_list), ev)
        else
          (.ok (.one (daily_list.headD (mkDaily stid .vnone))), ev)

-- ==========================================================================
-- The default schema (thetae/schemas/default.py)
-- ==========================================================================

/-- `DAILY_FORECAST` of the default schema. -/
def dailyForecastPairs : SchemaPairs :=
  [("DateTime", "TEXT NOT NULL"), ("Model", "TEXT"), ("high", "REAL"),
   ("low", "REAL"), ("wind", "REAL"), ("rain", "REAL"),
   ("PRIMARY KEY", "(DateTime, Model)")]

/-- `HOURLY_FORECAST` of the default schema. -/
def hourlyForecastPairs : SchemaPairs :=
  [("DateTime", "TEXT NOT NULL"), ("Model", "TEXT"), ("temperature", "REAL"),
   ("dewpoint", "REAL"), ("cloud", "REAL"), ("windSpeed", "REAL"),
   ("windDirection", "REAL"), ("rain", "REAL"), ("condition", "TEXT"),
   ("PRIMARY KEY", "(DateTime, Model)")]

/-- `VERIF` of the default schema. -/
def verifPairs : SchemaPairs :=
  [("DateTime", "TEXT NOT NULL UNIQUE PRIMARY KEY"), ("high", "REAL"),
   ("low", "REAL"), ("wind", "REAL"), ("rain", "REAL")]

-- ==========================================================================
-- Concrete fixtures used by witnesses and counterexamples
-- ==========================================================================

/-- The `'forecast'` data binding over the default schema's forecast tables. -/
def bindA : BindingCfg :=
  { schema := [("DAILY_FORECAST", dailyForecastPairs),
               ("HOURLY_FORECAST", hourlyForecastPairs)],
    database := "theta-e" }

/-- A config with the `'forecast'` data binding, one declared database and
one station. -/
def cfgA : Config :=
  { dataBindings := [("forecast", bindA)],
    databases := ["theta-e"],
    stations := ["KSEA"] }

/-- Fresh forecast tables for KSEA. -/
def envA : DbEnv :=
  [("theta-e", [createdTable "KSEA_DAILY_FORECAST" dailyForecastPairs,
                createdTable "KSEA_HOURLY_FORECAST" hourlyForecastPairs])]

/-- 2020-01-01 00:00:00 UTC. -/
def t2020 : Int := toAbs 2020 1 1 0 0 0

/-- A forecast for KSEA from model GFS on 2020-01-01 (fresh children). -/
def fA : ForecastObj := mkForecast "KSEA" (.vstr "GFS") (.vdt t2020)

/-- `envA` after `fA`'s daily half has been written. -/
def envA1 : DbEnv :=
  [("theta-e",
    [{ name := "KSEA_DAILY_FORECAST",
       cols := ["DateTime", "Model", "high", "low", "wind", "rain"],
       rows := [[.vstr "2020-01-01 00:00:00", .vstr "GFS",
                 .vnone, .vnone, .vnone, .vnone]] },
     createdTable "KSEA_HOURLY_FORECAST" hourlyForecastPairs])]

-- ==========================================================================
-- C10: Forecast source propagation
-- ==========================================================================

/-- C10: a newly constructed `Forecast(stid, model, date)` gives its embedded
`TimeSeries` and `Daily` the station id and the model label of the parent,
and `setModel(m)` sets the model of the `Forecast` and of both children to
`m`. -/
theorem c10_forecast_model_propagation (stid : String) (model date : PyVal)
    (f : ForecastObj) (m : PyVal) :
    ((mkForecast stid model date).timeseries.stid = stid ∧
     (mkForecast stid model date).daily.stid = stid ∧
     (mkForecast stid model date).timeseries.model = model ∧
     (mkForecast stid model date).daily.model = model) ∧
    ((f.setModel m).model = m ∧
     (f.setModel m).timeseries.model = m ∧
     (f.setModel m).daily.model = m) :=
  ⟨⟨rfl, rfl, rfl, rfl⟩, ⟨rfl, rfl, rfl⟩⟩

-- ==========================================================================
-- C4: date-window defaulting of db._read
-- ==========================================================================

/-- C4: with `end` omitted and `start = T`, `_read` queries the same
inclusive window as an explicit `end = T + 24h`; with `start` omitted and
`end = T`, the same as an explicit `start = T - 24h`; with both omitted the
window is now .. now + 24h. -/
theorem c4_window_defaulting (T now : Int) :
    readWindow (.vdt T) .vnone now = readWindow (.vdt T) (.vdt (T + 24 * 3600)) now ∧
    readWindow .vnone (.vdt T) now = readWindow (.vdt (T - 24 * 3600)) (.vdt T) now ∧
    readWindow .vnone .vnone now =
      .ok (fmtDateTime now, fmtDateTime (now + 24 * 3600)) := by
  refine ⟨?_, ?_, ?_⟩ <;> rfl

-- ==========================================================================
-- C9: writeForecast swallows the timeseries ValueError
-- ==========================================================================

/-- C9: when the daily half of a `writeForecast` call has been written and
committed (state `env1`) and the timeseries half raises a `ValueError`
(e.g. an empty timeseries, or a mixed-station timeseries list), the
`ValueError` is caught and suppressed: `writeForecast` returns success with
the daily rows still persisted (final state exactly `env1`). -/
theorem c9_writeForecast_swallows_valueerror (cfg : Config) (fc : FcArg)
    (env env1 : DbEnv) (ev1 ev2 : List Event) (msg : String)
    (hd : writeDaily cfg fc.dailyHalf "forecast" "DAILY_FORECAST" env = (.ok env1, ev1))
    (ht : writeTimeSeries cfg fc.tsHalf "forecast" "HOURLY_FORECAST" env1 =
            (.error (.valueError msg), ev2)) :
    writeForecast cfg fc env = (.ok env1, ev1 ++ ev2) := by
  simp only [writeForecast, hd, ht, PyErr.isValueError, if_true]

/-- Witness for C9: a forecast with an empty timeseries is silently partially
persisted — its daily row is committed and `writeForecast` reports success. -/
theorem c9_witness :
    writeForecast cfgA (.one fA) envA =
      (.ok envA1, [.connOpen "theta-e", .rowsWritten "KSEA_DAILY_FORECAST" 1]) :=
  c9_writeForecast_swallows_valueerror cfgA (.one fA) envA envA1
    [.connOpen "theta-e", .rowsWritten "KSEA_DAILY_FORECAST" 1] []
    "db._write: no values to write." (by rfl) (by rfl)

-- ==========================================================================
-- C7: the 'PRIMARY KEY' pseudo-column
-- ==========================================================================

/-- C7: converting a `Daily` (resp. a timeseries row) into a row tuple binds
one value per schema column *except* a column named `PRIMARY KEY` — the row
equals the map over the filtered column list, positionally — while the
`CREATE TABLE` text built by `db.init` joins every `(name, type)` pair
verbatim as `name type`, the `PRIMARY KEY` pair included (shown both in
general and on the default `DAILY_FORECAST` schema). -/
theorem c7_primary_key_pseudocolumn :
    (∀ (d : DailyObj) (datestr : String) (model : PyVal) (cols : List String),
        daily_to_row d datestr model cols
          = (cols.filter (fun c => pyToUpper c != "PRIMARY KEY")).map
              (fun c => if pyToUpper c == "DATETIME" then PyVal.vstr datestr
                        else if pyToUpper c == "MODEL" then model
                        else d.getattrD c .vnone))
    ∧ (∀ (frameCols : List String) (row : List PyVal) (datestr model : PyVal)
          (cols : List String),
        hourlyRowCells frameCols row datestr model cols
          = (cols.filter (fun c => c != "PRIMARY KEY")).map
              (fun c => if c == "DATETIME" then datestr
                        else if c == "MODEL" then model
                        else hourlyCellVal frameCols row c))
    ∧ (∀ (pairs : SchemaPairs) (p : String × String), p ∈ pairs →
        (p.1 ++ " " ++ p.2) ∈ columnDefs pairs)
    ∧ createStmt "KSEA_DAILY_FORECAST" dailyForecastPairs
        = "CREATE TABLE KSEA_DAILY_FORECAST (DateTime TEXT NOT NULL, Model TEXT, high REAL, low REAL, wind REAL, rain REAL, PRIMARY KEY (DateTime, Model));" := by
  refine ⟨?_, ?_, ?_, ?_⟩
  · intro d datestr model cols
    induction cols with
    | nil => rfl
    | cons c cs ih =>
      by_cases h1 : pyToUpper c = "DATETIME"
      · simp [daily_to_row, h1, ih, List.filter_cons]
      · by_cases h2 : pyToUpper c = "MODEL"
        · simp [daily_to_row, h1, h2, ih, List.filter_cons]
        · by_cases h3 : pyToUpper c = "PRIMARY KEY"
          · simp [daily_to_row, h1, h2, h3, ih, List.filter_cons]
          · simp [daily_to_row, h1, h2, h3, ih, List.filter_cons]
  · intro frameCols row datestr model cols
    induction cols with
    | nil => rfl
    | cons c cs ih =>
      by_cases h1 : c = "DATETIME"
      · simp [hourlyRowCells, h1, ih, List.filter_cons]
      · by_cases h2 : c = "MODEL"
        · simp [hourlyRowCells, h1, h2, ih, List.filter_cons]
        · by_cases h3 : c = "PRIMARY KEY"
          · simp [hourlyRowCells, h1, h2, h3, ih, List.filter_cons]
          · simp [hourlyRowCells, h1, h2, h3, ih, List.filter_cons]
  · intro pairs p hp
    simpa [columnDefs] using List.mem_map_of_mem (fun q => q.1 ++ " " ++ q.2) hp
  · rfl

/-- Witness for C7: on the default `DAILY_FORECAST` schema, the `PRIMARY
KEY` pair appears verbatim in the column definitions while the row built for
a `Daily` has six cells (one per real column). -/
theorem c7_witness :
    ("PRIMARY KEY", "(DateTime, Model)") ∈ dailyForecastPairs ∧
    ("PRIMARY KEY" ++ " " ++ "(DateTime, Model)") ∈ columnDefs dailyForecastPairs ∧
    daily_to_row (mkDaily "KSEA" (.vdt t2020)) "2020-01-01 00:00:00" (.vstr "GFS")
        (dailyForecastPairs.map (·.1))
      = [.vstr "2020-01-01 00:00:00", .vstr "GFS", .vnone, .vnone, .vnone, .vnone] :=
  ⟨by decide,
   c7_primary_key_pseudocolumn.2.2.1 dailyForecastPairs
     ("PRIMARY KEY", "(DateTime, Model)") (by decide),
   by decide⟩

-- ==========================================================================
-- C5: staleness windows of db.init
-- ==========================================================================

/-- Left cancellation for string append. -/
theorem strAppendLeftCancel {s a b : String} (h : s ++ a = s ++ b) : a = b := by
  have h2 := congrArg String.data h
  simp only [String.data_append] at h2
  exact String.ext (List.append_cancel_left h2)

/-- A found table's name is among the catalog's table names. -/
theorem dbFind_contains {db : DbState} {name : String} {tb : STable}
    (h : dbFind db name = some tb) : (tableNames db).contains name = true := by
  unfold dbFind at h
  have hmem := List.mem_of_find?_eq_some h
  have hname : tb.name = name := by
    have hpred := List.find?_some h
    simpa using hpred
  refine List.elem_eq_true_of_mem ?_
  rw [← hname]
  exact List.mem_map_of_mem (fun t => t.name) hmem

/-- C5: in `db.init`'s staleness check, a non-CLIMO table whose newest
(parsed) timestamp is `t` is stale exactly when `now - t` strictly exceeds
30 days, while the CLIMO table is stale exactly when its newest timestamp
predates December 31 of the last complete leap year (so CLIMO is not subject
to the 30-day rule). -/
theorem c5_staleness_windows (reset_old : Bool) (now : Int)
    (stidU key dateKey dateKey2 : String) (pairs pairs2 : SchemaPairs)
    (db db2 : DbState) (tb tb2 : STable) (v v2 : PyVal) (t t2 : Int)
    (hkey : key ≠ "CLIMO")
    (hfind : dbFind db (stidU ++ "_" ++ key) = some tb)
    (hmax : maxIndexVal tb dateKey = some v)
    (hparse : date_to_datetime v = .vdt t)
    (hfind2 : dbFind db2 (stidU ++ "_CLIMO") = some tb2)
    (hmax2 : maxIndexVal tb2 dateKey2 = some v2)
    (hparse2 : date_to_datetime v2 = .vdt t2) :
    tableStep reset_old now stidU key pairs dateKey db
      = (if now - t > 30 * 86400 then
           (if reset_old then .ok (dropCreate db (stidU ++ "_" ++ key) pairs, true)
            else .ok (db, true))
         else .ok (db, false))
    ∧ tableStep reset_old now stidU "CLIMO" pairs2 dateKey2 db2
      = (if t2 < 86400 * toOrdinal (last_leap_year now) 12 31 then
           (if reset_old then .ok (dropCreate db2 (stidU ++ "_" ++ "CLIMO") pairs2, true)
            else .ok (db2, true))
         else .ok (db2, false)) := by
  have e2 : "_CLIMO" = "_" ++ "CLIMO" := by decide
  have e1 : stidU ++ "_CLIMO" = stidU ++ "_" ++ "CLIMO" := by
    rw [String.append_assoc, ← e2]
  constructor
  · have hc : (tableNames db).contains (stidU ++ "_" ++ key) = true :=
      dbFind_contains hfind
    have hne : (stidU ++ "_" ++ key) ≠ stidU ++ "_CLIMO" := by
      intro heq
      exact hkey (strAppendLeftCancel (s := stidU ++ "_") (heq.trans e1))
    have hbne : ((stidU ++ "_" ++ key) != (stidU ++ "_CLIMO")) = true :=
      bne_iff_ne.mpr hne
    simp only [tableStep, hc, hbne, if_true, hfind, hmax, hparse]
  · have hfind2' : dbFind db2 (stidU ++ "_" ++ "CLIMO") = some tb2 := by
      rw [← e1]; exact hfind2
    have hc : (tableNames db2).contains (stidU ++ "_" ++ "CLIMO") = true :=
      dbFind_contains hfind2'
    have hbne' : ((stidU ++ "_" ++ "CLIMO") != (stidU ++ "_CLIMO")) = false :=
      bne_eq_false_iff_eq.mpr e1.symm
    simp only [tableStep, hc, hbne', if_true, Bool.false_eq_true, if_false,
      hfind2', hmax2, hparse2]
    by_cases hs : t2 < 86400 * toOrdinal (last_leap_year now) 12 31
    · have hgt : now - t2 > now - 86400 * toOrdinal (last_leap_year now) 12 31 := by
        omega
      rw [if_pos hgt, if_pos hs]
    · have hgt : ¬(now - t2 > now - 86400 * toOrdinal (last_leap_year now) 12 31) := by
        omega
      rw [if_neg hgt, if_neg hs]

/-- KSEA_VERIF with one row from 2020-01-01. -/
def tbC5 : STable :=
  { name := "KSEA_VERIF", cols := ["DateTime", "high", "low", "wind", "rain"],
    rows := [[.vstr "2020-01-01 00:00:00", .vnone, .vnone, .vnone, .vnone]] }

/-- KSEA_CLIMO with one row from 2019-06-01. -/
def tbC5c : STable :=
  { name := "KSEA_CLIMO", cols := ["DateTime", "high", "low", "wind", "rain"],
    rows := [[.vstr "2019-06-01 00:00:00", .vnone, .vnone, .vnone, .vnone]] }

/-- Databases holding just those tables. -/
def dbC5 : DbState := [tbC5]

def dbC5c : DbState := [tbC5c]

/-- Witness for C5 at 2020-03-01: the 60-day-old VERIF table is stale (and is
reset under the hard policy), while the nine-month-old CLIMO row — newer than
2016-12-31, the December 31 of the last complete leap year — is current. -/
theorem c5_witness :
    tableStep true (toAbs 2020 3 1 0 0 0) "KSEA" "VERIF" verifPairs "DateTime" dbC5
      = .ok (dropCreate dbC5 ("KSEA" ++ "_" ++ "VERIF") verifPairs, true)
    ∧ tableStep true (toAbs 2020 3 1 0 0 0) "KSEA" "CLIMO" verifPairs "DateTime" dbC5c
      = .ok (dbC5c, false) := by
  have h := c5_staleness_windows true (toAbs 2020 3 1 0 0 0) "KSEA" "VERIF"
    "DateTime" "DateTime" verifPairs verifPairs dbC5 dbC5c tbC5 tbC5c
    (.vstr "2020-01-01 00:00:00") (.vstr "2019-06-01 00:00:00")
    (toAbs 2020 1 1 0 0 0) (toAbs 2019 6 1 0 0 0)
    (by decide) (by rfl) (by rfl) (by rfl) (by rfl) (by rfl) (by rfl)
  exact ⟨by rw [h.1]; rfl, by rw [h.2]; rfl⟩

-- ==========================================================================
-- C2: malformed stored timestamps in db.init
-- ==========================================================================

/-- C2 (amended): during `db.init`'s per-table check, a stored newest
indexing value that is a string not parseable in the canonical
`YYYY-MM-DD HH:MM:SS` form survives `date_to_datetime` unchanged, and the
staleness comparison `time_now - last_dt` then raises a `TypeError` — which
is *outside* the `try/except` and so propagates; the table is not marked
stale and the station is not recorded for backfill. -/
theorem c2_malformed_timestamp_raises (reset_old : Bool) (now : Int)
    (stidU key dateKey : String) (pairs : SchemaPairs) (db : DbState)
    (tb : STable) (s : String)
    (hfind : dbFind db (stidU ++ "_" ++ key) = some tb)
    (hmax : maxIndexVal tb dateKey = some (.vstr s))
    (hbad : strptimeYmdHms s = none) :
    tableStep reset_old now stidU key pairs dateKey db = .error .typeError := by
  have hc := dbFind_contains hfind
  have hparse : date_to_datetime (.vstr s) = .vstr s := by
    simp [date_to_datetime, hbad]
  simp only [tableStep, hc, if_true, hfind, hmax, hparse]

/-- KSEA_VERIF whose stored newest timestamp is the malformed string
`"garbage"`. -/
def tbC2 : STable :=
  { name := "KSEA_VERIF", cols := ["DateTime", "high", "low", "wind", "rain"],
    rows := [[.vstr "garbage", .vnone, .vnone, .vnone, .vnone]] }

def dbC2 : DbState := [tbC2]

/-- A config binding the default VERIF table only. -/
def cfgC2 : Config :=
  { dataBindings := [("forecast", { schema := [("VERIF", verifPairs)],
                                    database := "theta-e" })],
    databases := ["theta-e"],
    stations := ["KSEA"] }

def envC2 : DbEnv := [("theta-e", dbC2)]

/-- Counterexample to C2 as stated: with one existing table whose stored
newest timestamp is the malformed string `"garbage"`, `db.init` does *not*
treat the table as stale and return a backfill list — it raises `TypeError`,
so a parse-induced error does propagate out of `init`. -/
theorem c2_counterexample :
    dbInit cfgC2 true t2020 envC2 = .error .typeError := by rfl

/-- Witness for the amended C2 theorem at the same concrete table. -/
theorem c2_witness :
    tableStep true t2020 "KSEA" "VERIF" verifPairs "DateTime" dbC2
      = .error .typeError :=
  c2_malformed_timestamp_raises true t2020 "KSEA" "VERIF" "DateTime"
    verifPairs dbC2 tbC2 "garbage" (by rfl) (by rfl) (by rfl)

-- ==========================================================================
-- C6: shape validation of db._write
-- ==========================================================================

/-- Once `row_len` is nonzero, any later row of a different length makes the
shape loop fail (with a `ValueError`, or a `TypeError` if a non-tuple comes
first). -/
theorem rowLenLoop_future_mismatch :
    ∀ (values : List PyRow) (row_len j : Nat) (rj : PyRow),
      row_len ≠ 0 → values[j]? = some rj → rj.len ≠ row_len →
      ∃ e, rowLenLoop values row_len = .error e ∧
        (e = .typeError ∨ e.isValueError = true) := by
  intro values
  induction values with
  | nil => intro row_len j rj h0 hj hne; simp at hj
  | cons v rest ih =>
    intro row_len j rj h0 hj hne
    match v with
    | .nontup => exact ⟨.typeError, rfl, Or.inl rfl⟩
    | .tup cells =>
      by_cases hc : (row_len == 0 || row_len == cells.length) = true
      · have hrl : row_len = cells.length := by
          rcases (by simpa using hc : row_len = 0 ∨ row_len = cells.length) with h | h
          · exact absurd h h0
          · exact h
        cases j with
        | zero =>
          have hrj : rj = PyRow.tup cells := by simpa using hj.symm
          rw [hrj] at hne
          rw [hrl] at hne
          exact absurd rfl hne
        | succ j' =>
          have hj' : rest[j']? = some rj := by simpa using hj
          have hrec := ih cells.length j' rj (hrl ▸ h0) hj' (by rw [← hrl]; exact hne)
          simpa [rowLenLoop, hc] using hrec
      · exact ⟨.valueError "db._write: all rows of values must have the same length.",
          by simp [rowLenLoop, hc], Or.inr rfl⟩

/-- Two positions with different row lengths, the earlier one nonzero, make
the shape loop fail. -/
theorem rowLenLoop_two_mismatch :
    ∀ (values : List PyRow) (row_len i j : Nat) (ri rj : PyRow),
      i < j → values[i]? = some ri → values[j]? = some rj →
      ri.len ≠ rj.len → ri.len ≠ 0 →
      ∃ e, rowLenLoop values row_len = .error e ∧
        (e = .typeError ∨ e.isValueError = true) := by
  intro values
  induction values with
  | nil => intro row_len i j ri rj hij hi hj hne h0; simp at hi
  | cons v rest ih =>
    intro row_len i j ri rj hij hi hj hne h0
    match v with
    | .nontup => exact ⟨.typeError, rfl, Or.inl rfl⟩
    | .tup cells =>
      by_cases hc : (row_len == 0 || row_len == cells.length) = true
      · cases i with
        | zero =>
          have hri : ri = PyRow.tup cells := by simpa using hi.symm
          cases j with
          | zero => exact absurd hij (by omega)
          | succ j' =>
            have hj' : rest[j']? = some rj := by simpa using hj
            have hlen0 : cells.length ≠ 0 := by
              rw [hri] at h0; exact h0
            have hnej : rj.len ≠ cells.length := by
              rw [hri] at hne; exact fun h => hne h.symm
            have hrec := rowLenLoop_future_mismatch rest cells.length j' rj hlen0 hj' hnej
            simpa [rowLenLoop, hc] using hrec
        | succ i' =>
          cases j with
          | zero => exact absurd hij (by omega)
          | succ j' =>
            have hi' : rest[i']? = some ri := by simpa using hi
            have hj' : rest[j']? = some rj := by simpa using hj
            have hrec := ih cells.length i' j' ri rj (by omega) hi' hj' hne h0
            simpa [rowLenLoop, hc] using hrec
      · exact ⟨.valueError "db._write: all rows of values must have the same length.",
          by simp [rowLenLoop, hc], Or.inr rfl⟩

/-- A non-tuple element makes the shape loop fail. -/
theorem rowLenLoop_nontup_mem :
    ∀ (values : List PyRow) (row_len : Nat), PyRow.nontup ∈ values →
      ∃ e, rowLenLoop values row_len = .error e ∧
        (e = .typeError ∨ e.isValueError = true) := by
  intro values
  induction values with
  | nil => intro _ h; cases h
  | cons v rest ih =>
    intro row_len hmem
    match v with
    | .nontup => exact ⟨.typeError, rfl, Or.inl rfl⟩
    | .tup cells =>
      have hmem' : PyRow.nontup ∈ rest := by
        rcases List.mem_cons.mp hmem with h | h
        · cases h
        · exact h
      by_cases hc : (row_len == 0 || row_len == cells.length) = true
      · simpa [rowLenLoop, hc] using ih cells.length hmem'
      · exact ⟨.valueError "db._write: all rows of values must have the same length.",
          by simp [rowLenLoop, hc], Or.inr rfl⟩

/-- A failing shape loop makes `_write` return that error with no events. -/
theorem write_err_of_rowLenLoop {cfg : Config} {values : List PyRow}
    {database table : String} {env : DbEnv} {e : PyErr}
    (hne : values ≠ []) (he : rowLenLoop values 0 = .error e) :
    _write cfg values database table true env = (.error e, []) := by
  have hl : (values.length == 0) = false := by
    cases values with
    | nil => exact absurd rfl hne
    | cons v rest => simp
  simp only [_write, hl, Bool.false_eq_true, if_false, he]

/-- C6 (amended): `db._write` raises synchronously, before opening any
database connection (no I/O events), when `values` is empty, when some row
is not a tuple, or when some row's length differs from that of an earlier
row of *nonzero* length.  (The original claim fails for two rows of
different lengths when every earlier row is empty: the loop treats
`row_len == 0` as "not yet constrained", see the counterexample.) -/
theorem c6_shape_validation (cfg : Config) (database table : String)
    (env : DbEnv) (values : List PyRow) :
    (_write cfg [] database table true env
       = (.error (.valueError "db._write: no values to write."), []))
    ∧ (PyRow.nontup ∈ values →
        ∃ e, _write cfg values database table true env = (.error e, [])
          ∧ (e = .typeError ∨ e.isValueError = true))
    ∧ (∀ (i j : Nat) (ri rj : PyRow), i < j →
        values[i]? = some ri → values[j]? = some rj →
        ri.len ≠ rj.len → ri.len ≠ 0 →
        ∃ e, _write cfg values database table true env = (.error e, [])
          ∧ (e = .typeError ∨ e.isValueError = true)) := by
  refine ⟨rfl, ?_, ?_⟩
  · intro hmem
    obtain ⟨e, he, hkind⟩ := rowLenLoop_nontup_mem values 0 hmem
    have hne : values ≠ [] := by intro h; rw [h] at hmem; cases hmem
    exact ⟨e, write_err_of_rowLenLoop hne he, hkind⟩
  · intro i j ri rj hij hi hj hne h0
    obtain ⟨e, he, hkind⟩ := rowLenLoop_two_mismatch values 0 i j ri rj hij hi hj hne h0
    have hnnil : values ≠ [] := by
      intro h; rw [h] at hi; simp at hi
    exact ⟨e, write_err_of_rowLenLoop hnnil he, hkind⟩

/-- Counterexample to C6 as stated: the batch `[(), (1,)]` has two rows of
different lengths, yet the shape loop accepts it and `_write` opens a
database connection (the failure is a later database-level arity error, not
a synchronous pre-I/O `ValueError`). -/
theorem c6_counterexample :
    (PyRow.tup []).len ≠ (PyRow.tup [PyVal.vnum 1]).len
    ∧ rowLenLoop [PyRow.tup [], PyRow.tup [PyVal.vnum 1]] 0 = .ok 1
    ∧ (_write cfgA [PyRow.tup [], PyRow.tup [PyVal.vnum 1]] "theta-e"
         "KSEA_DAILY_FORECAST" true envA).2 = [Event.connOpen "theta-e"] :=
  ⟨by decide, rfl, rfl⟩

/-- Witness for the amended C6 theorem: `[(1,), ()]` — whose first row is
nonempty — is rejected before any connection is opened. -/
theorem c6_witness :
    ∃ e, _write cfgA [PyRow.tup [PyVal.vnum 1], PyRow.tup []] "theta-e"
        "KSEA_DAILY_FORECAST" true envA = (.error e, [])
      ∧ (e = .typeError ∨ e.isValueError = true) :=
  (c6_shape_validation cfgA "theta-e" "KSEA_DAILY_FORECAST" envA
      [PyRow.tup [PyVal.vnum 1], PyRow.tup []]).2.2 0 1
    (PyRow.tup [PyVal.vnum 1]) (PyRow.tup []) (by omega) (by rfl) (by rfl)
    (by decide) (by decide)

-- ==========================================================================
-- C3: mixed-station batches are rejected before any I/O
-- ==========================================================================

/-- The data-model well-formedness of a `TimeSeries`: every row of its frame
is keyed by a timestamp (the upper-cased frame has a `DATETIME` column whose
cell converts to a date string). -/
def tsRowsConvertible (ts : TimeSeriesObj) : Prop :=
  ∀ row ∈ ts.data.rows,
    ∃ v, hourlyDatestr (ts.data.cols.map pyToUpper) row = .ok v

/-- If two members of a list disagree under `f`, some member disagrees with
the head. -/
theorem two_ne_imp_ne_head {α β : Type} (f : α → β) (d0 : α) (rest : List α)
    (h : ∃ a ∈ d0 :: rest, ∃ b ∈ d0 :: rest, f a ≠ f b) :
    ∃ c ∈ d0 :: rest, f c ≠ f d0 := by
  obtain ⟨a, ha, b, hb, hab⟩ := h
  by_cases hax : f a = f d0
  · exact ⟨b, hb, fun hbx => hab (hax.trans hbx.symm)⟩
  · exact ⟨a, ha, hax⟩

/-- A `Daily` in the list with a different station id makes the row loop
raise the mixed-station `ValueError`. -/
theorem dailyRowsLoop_mixed (stid0 : String) (cols : List String) :
    ∀ ds : List DailyObj, (∃ d ∈ ds, d.stid ≠ stid0) →
      dailyRowsLoop stid0 cols ds
        = .error (.valueError "db.writeDaily error: all forecasts in list must have the same station id.") := by
  intro ds
  induction ds with
  | nil => intro h; obtain ⟨d, hd, _⟩ := h; cases hd
  | cons d rest ih =>
    intro h
    by_cases hd0 : d.stid = stid0
    · have hrest : ∃ c ∈ rest, c.stid ≠ stid0 := by
        obtain ⟨c, hc, hcne⟩ := h
        rcases List.mem_cons.mp hc with rfl | hmem
        · exact absurd hd0 hcne
        · exact ⟨c, hmem, hcne⟩
      have hbne : (stid0 != d.stid) = false := by
        simp [hd0.symm]
      simp only [dailyRowsLoop, hbne, Bool.false_eq_true, if_false,
        ih hrest, bind, Except.bind]
    · have hbne : (stid0 != d.stid) = true := bne_iff_ne.mpr (fun h2 => hd0 h2.symm)
      simp only [dailyRowsLoop, hbne, if_true]

/-- A convertible frame makes `hourly_to_row` succeed. -/
theorem hourlyRowsLoop_ok (fcols cols : List String) (model : PyVal) :
    ∀ rows : List (List PyVal),
      (∀ row ∈ rows, ∃ v, hourlyDatestr fcols row = .ok v) →
      ∃ out, hourlyRowsLoop fcols cols model rows = .ok out := by
  intro rows
  induction rows with
  | nil => intro _; exact ⟨[], rfl⟩
  | cons r rest ih =>
    intro h
    obtain ⟨v, hv⟩ := h r (List.mem_cons_self r rest)
    obtain ⟨out, hout⟩ := ih (fun row hm => h row (List.mem_cons_of_mem r hm))
    refine ⟨hourlyRowCells fcols r v model cols :: out, ?_⟩
    simp only [hourlyRowsLoop, hv, hout, bind, Except.bind, pure, Except.pure]

/-- A `TimeSeries` in the list with a different station id — all members
well-formed — makes the timeseries row loop raise the mixed-station
`ValueError`. -/
theorem tsRowsLoop_mixed (stid0 : String) (cols : List String) :
    ∀ tss : List TimeSeriesObj,
      (∀ ts ∈ tss, tsRowsConvertible ts) →
      (∃ u ∈ tss, u.stid ≠ stid0) →
      tsRowsLoop stid0 cols tss
        = .error (.valueError "db.writeTimeSeries error: all forecasts in list must have the same station id.") := by
  intro tss
  induction tss with
  | nil => intro _ h; obtain ⟨u, hu, _⟩ := h; cases hu
  | cons ts rest ih =>
    intro hwf h
    by_cases hd0 : ts.stid = stid0
    · have hrest : ∃ c ∈ rest, c.stid ≠ stid0 := by
        obtain ⟨c, hc, hcne⟩ := h
        rcases List.mem_cons.mp hc with rfl | hmem
        · exact absurd hd0 hcne
        · exact ⟨c, hmem, hcne⟩
      have hbne : (stid0 != ts.stid) = false := by
        simp [hd0.symm]
      obtain ⟨out, hout⟩ := hourlyRowsLoop_ok (ts.data.cols.map pyToUpper)
        (cols.map pyToUpper) ts.model ts.data.rows
        (hwf ts (List.mem_cons_self ts rest))
      have hrec := ih (fun u hu => hwf u (List.mem_cons_of_mem ts hu)) hrest
      simp only [tsRowsLoop, hbne, Bool.false_eq_true, if_false, hourly_to_row,
        hout, hrec, bind, Except.bind]
    · have hbne : (stid0 != ts.stid) = true := bne_iff_ne.mpr (fun h2 => hd0 h2.symm)
      simp only [tsRowsLoop, hbne, if_true]

/-- C3: a list of `Daily` (resp. well-formed `TimeSeries`) objects holding
two different station ids makes `writeDaily` (resp. `writeTimeSeries`) raise
`ValueError` with *no* database I/O performed: no connection is opened, no
row written, and the returned state is an error so the database is
untouched. -/
theorem c3_mixed_station_rejection (cfg : Config) (binding ttype : String)
    (env : DbEnv) (ds : List DailyObj) (tss : List TimeSeriesObj)
    (b : BindingCfg) (pairs : SchemaPairs)
    (hb : lookupBinding cfg binding = .ok b)
    (hp : lookupSchema b.schema (pyToUpper ttype) = .ok pairs)
    (hmixd : ∃ d1 ∈ ds, ∃ d2 ∈ ds, d1.stid ≠ d2.stid)
    (hwf : ∀ ts ∈ tss, tsRowsConvertible ts)
    (hmixt : ∃ u1 ∈ tss, ∃ u2 ∈ tss, u1.stid ≠ u2.stid) :
    writeDaily cfg (.many ds) binding ttype env
      = (.error (.valueError "db.writeDaily error: all forecasts in list must have the same station id."), [])
    ∧ writeTimeSeries cfg (.many tss) binding ttype env
      = (.error (.valueError "db.writeTimeSeries error: all forecasts in list must have the same station id."), []) := by
  constructor
  · cases ds with
    | nil => obtain ⟨d, hd, _⟩ := hmixd; cases hd
    | cons d0 rest =>
      have hne := two_ne_imp_ne_head (fun d => d.stid) d0 rest hmixd
      have hloop := dailyRowsLoop_mixed d0.stid (pairs.map (·.1)) (d0 :: rest) hne
      simp only [writeDaily, hb, hp, dailyToSql, hloop, bind, Except.bind]
  · cases tss with
    | nil => obtain ⟨u, hu, _⟩ := hmixt; cases hu
    | cons u0 rest =>
      have hne := two_ne_imp_ne_head (fun u => u.stid) u0 rest hmixt
      have hloop := tsRowsLoop_mixed u0.stid (pairs.map (·.1)) (u0 :: rest) hwf hne
      simp only [writeTimeSeries, hb, hp, tsToSql, hloop, bind, Except.bind]

/-- Witness for C3: the batches `[Daily("KSEA"), Daily("KPDX")]` and
`[TimeSeries("KSEA"), TimeSeries("KPDX")]` are both rejected with a
`ValueError` and an empty I/O trace. -/
theorem c3_witness :
    writeDaily cfgA
        (.many [mkDaily "KSEA" (.vdt t2020), mkDaily "KPDX" (.vdt t2020)])
        "forecast" "DAILY_FORECAST" envA
      = (.error (.valueError "db.writeDaily error: all forecasts in list must have the same station id."), [])
    ∧ writeTimeSeries cfgA (.many [mkTimeSeries "KSEA", mkTimeSeries "KPDX"])
        "forecast" "DAILY_FORECAST" envA
      = (.error (.valueError "db.writeTimeSeries error: all forecasts in list must have the same station id."), []) :=
  c3_mixed_station_rejection cfgA "forecast" "DAILY_FORECAST" envA
    [mkDaily "KSEA" (.vdt t2020), mkDaily "KPDX" (.vdt t2020)]
    [mkTimeSeries "KSEA", mkTimeSeries "KPDX"] bindA dailyForecastPairs
    (by rfl) (by rfl)
    ⟨mkDaily "KSEA" (.vdt t2020), by simp,
     mkDaily "KPDX" (.vdt t2020), by simp, by decide⟩
    (by
      intro ts hts row hrow
      rcases List.mem_cons.mp hts with rfl | hts2
      · simp [mkTimeSeries] at hrow
      · rcases List.mem_cons.mp hts2 with rfl | h3
        · simp [mkTimeSeries] at hrow
        · cases h3)
    ⟨mkTimeSeries "KSEA", by simp,
     mkTimeSeries "KPDX", by simp, by decide⟩

-- ==========================================================================
-- C1: the Daily round-trip (write then read back)
-- ==========================================================================

/-- The KSEA Daily of the spec's round-trip scenario. -/
def dC1 : DailyObj :=
  { stid := "KSEA", date := .vdt t2020, model := .vstr "GFS",
    high := .vnum 52, low := .vnum 41, wind := .vnum 17, rain := .vnum (2/5) }

/-- `envA` after `dC1` is written. -/
def envC1w : DbEnv :=
  [("theta-e",
    [{ name := "KSEA_DAILY_FORECAST",
       cols := ["DateTime", "Model", "high", "low", "wind", "rain"],
       rows := [[.vstr "2020-01-01 00:00:00", .vstr "GFS",
                 .vnum 52, .vnum 41, .vnum 17, .vnum (2/5)]] },
     createdTable "KSEA_HOURLY_FORECAST" hourlyForecastPairs])]

/-- C1 (code bug): writing `dC1` succeeds and stores its four measurements,
but reading the same (station, date) window back with the same model does
*not* return a `Daily` — `readDaily` raises `AttributeError`, because it
calls `daily.set_values(...)` while `util.Daily` defines only `setValues`.
The round-trip of the claim is impossible for every non-empty read. -/
theorem c1_roundtrip_crashes :
    writeDaily cfgA (.one dC1) "forecast" "DAILY_FORECAST" envA
      = (.ok envC1w, [.connOpen "theta-e", .rowsWritten "KSEA_DAILY_FORECAST" 1])
    ∧ readDaily cfgA "KSEA" "forecast" "DAILY_FORECAST" (some "GFS")
        (.vdt t2020) (.vdt t2020) false (toAbs 2020 1 2 0 0 0) envC1w
      = (.error (.attributeError "Daily object has no attribute set_values"),
         [.connOpen "theta-e"]) := by
  constructor <;> rfl

-- ==========================================================================
-- C8: db.init on a fresh station (lemma stack)
-- ==========================================================================

/-- Every table of `db` is either a table of the baseline `db0` or has no
rows.  `db.init` never inserts rows, so this invariant survives it. -/
def emptyGrown (db0 db : DbState) : Prop :=
  ∀ tb ∈ db, tb ∈ db0 ∨ tb.rows = []

theorem emptyGrown_refl (db : DbState) : emptyGrown db db :=
  fun _tb h => Or.inl h

/-- The three shapes a successful `tableStep` can leave the database in,
together with the fact that in the unchanged shapes the table already
existed. -/
theorem tableStep_shapes {r : Bool} {now : Int} {stidU key : String}
    {pairs : SchemaPairs} {dk : String} {db db₂ : DbState} {s : Bool}
    (h : tableStep r now stidU key pairs dk db = .ok (db₂, s)) :
    ((db₂ = db ∧ (tableNames db).contains (stidU ++ "_" ++ key) = true)
     ∨ db₂ = dropCreate db (stidU ++ "_" ++ key) pairs
     ∨ db₂ = db ++ [createdTable (stidU ++ "_" ++ key) pairs]) := by
  by_cases hc : ((tableNames db).contains (stidU ++ "_" ++ key)) = true
  · by_cases hr : r = true
    · simp only [tableStep, hc, hr, if_true] at h
      split at h
      · cases h
        exact Or.inr (Or.inl rfl)
      · split at h <;> split at h <;> cases h <;>
          first
          | exact Or.inr (Or.inl rfl)
          | exact Or.inl ⟨rfl, hc⟩
      · cases h
    · simp only [tableStep, hc, hr, if_true, if_false, Bool.false_eq_true] at h
      split at h
      · cases h
        exact Or.inl ⟨rfl, hc⟩
      · split at h <;> split at h <;> cases h <;> exact Or.inl ⟨rfl, hc⟩
      · cases h
  · simp only [tableStep, hc, Bool.false_eq_true, if_false] at h
    cases h
    exact Or.inr (Or.inr rfl)

/-- A table name present before a `tableStep` is present after it. -/
theorem tableStep_names_mono {r : Bool} {now : Int} {stidU key : String}
    {pairs : SchemaPairs} {dk : String} {db db₂ : DbState} {s : Bool}
    (h : tableStep r now stidU key pairs dk db = .ok (db₂, s)) :
    ∀ n ∈ tableNames db, n ∈ tableNames db₂ := by
  intro n hn
  rcases tableStep_shapes h with ⟨rfl, _⟩ | rfl | rfl
  · exact hn
  · by_cases he : n = stidU ++ "_" ++ key
    · subst he
      simp [dropCreate, tableNames, createdTable]
    · obtain ⟨tb, htb, hname⟩ := List.mem_map.mp hn
      refine List.mem_map.mpr ⟨tb, ?_, hname⟩
      unfold dropCreate
      refine List.mem_append_left _ ?_
      refine (List.mem_eraseP_of_neg ?_).mpr htb
      simp only [hname]
      simpa using he
  · simp only [tableNames, List.map_append, List.mem_append]
    exact Or.inl hn

/-- After a successful `tableStep`, the stepped table exists. -/
theorem tableStep_self_mem {r : Bool} {now : Int} {stidU key : String}
    {pairs : SchemaPairs} {dk : String} {db db₂ : DbState} {s : Bool}
    (h : tableStep r now stidU key pairs dk db = .ok (db₂, s)) :
    (stidU ++ "_" ++ key) ∈ tableNames db₂ := by
  rcases tableStep_shapes h with ⟨rfl, hc⟩ | rfl | rfl
  · have := List.mem_of_elem_eq_true hc
    exact this
  · simp [dropCreate, tableNames, createdTable]
  · simp [tableNames, createdTable]

/-- `tableStep` preserves the `emptyGrown` invariant. -/
theorem tableStep_emptyGrown {r : Bool} {now : Int} {stidU key : String}
    {pairs : SchemaPairs} {dk : String} {db0 db db₂ : DbState} {s : Bool}
    (h : tableStep r now stidU key pairs dk db = .ok (db₂, s))
    (heg : emptyGrown db0 db) : emptyGrown db0 db₂ := by
  rcases tableStep_shapes h with ⟨rfl, _⟩ | rfl | rfl
  · exact heg
  · intro tb htb
    unfold dropCreate at htb
    rcases List.mem_append.mp htb with hl | hr
    · exact heg tb (List.mem_of_mem_eraseP hl)
    · rcases List.mem_singleton.mp hr with rfl
      exact Or.inr rfl
  · intro tb htb
    rcases List.mem_append.mp htb with hl | hr
    · exact heg tb hl
    · rcases List.mem_singleton.mp hr with rfl
      exact Or.inr rfl

/-- An empty table has no newest indexing value. -/
theorem maxIndexVal_empty {tb : STable} {dk : String} (h : tb.rows = []) :
    maxIndexVal tb dk = none := by
  unfold maxIndexVal
  cases hci : colIndex tb.cols dk
  · rfl
  · rw [h]

/-- A present table name is found by `dbFind`. -/
theorem dbFind_of_contains {db : DbState} {name : String}
    (hc : (tableNames db).contains name = true) :
    ∃ tb, dbFind db name = some tb ∧ tb ∈ db ∧ tb.name = name := by
  have hmem : name ∈ tableNames db := List.mem_of_elem_eq_true hc
  obtain ⟨tb0, htb0, hn0⟩ := List.mem_map.mp hmem
  have hsome : (List.find? (fun t => t.name == name) db).isSome := by
    rw [List.find?_isSome]
    exact ⟨tb0, htb0, by simp [hn0]⟩
  obtain ⟨tb, htb⟩ := Option.isSome_iff_exists.mp hsome
  refine ⟨tb, htb, List.mem_of_find?_eq_some htb, ?_⟩
  have := List.find?_some htb
  simpa using this

/-- If every table named after the stepped table has no rows, a `tableStep`
always reports the table as missing-or-stale (`add_site`). -/
theorem tableStep_trig_true {r : Bool} {now : Int} {stidU key : String}
    {pairs : SchemaPairs} {dk : String} {db db₂ : DbState} {s : Bool}
    (h : tableStep r now stidU key pairs dk db = .ok (db₂, s))
    (hemp : ∀ tb ∈ db, tb.name = stidU ++ "_" ++ key → tb.rows = []) :
    s = true := by
  by_cases hc : ((tableNames db).contains (stidU ++ "_" ++ key)) = true
  · obtain ⟨tb, hfind, hmem, hname⟩ := dbFind_of_contains hc
    have hrows : tb.rows = [] := hemp tb hmem hname
    have hmax : maxIndexVal tb dk = none := maxIndexVal_empty hrows
    simp only [tableStep, hc, if_true, hfind, hmax] at h
    split at h <;> cases h <;> rfl
  · simp only [tableStep, hc, Bool.false_eq_true, if_false] at h
    cases h
    rfl

/-- The bundled facts of the per-station table loop: table names only grow,
every processed entry's table exists afterwards, `add_site` is monotone, and
the `emptyGrown` invariant is preserved. -/
theorem tablesLoop_facts (r : Bool) (now : Int) (stidU : String) :
    ∀ (entries : List ((String × SchemaPairs) × String)) (db : DbState)
      (add : Bool) (db₂ : DbState) (site : Bool),
    tablesLoop r now stidU entries db add = .ok (db₂, site) →
    (∀ n ∈ tableNames db, n ∈ tableNames db₂)
    ∧ (∀ p ∈ entries, stidU ++ "_" ++ p.1.1 ∈ tableNames db₂)
    ∧ (add = true → site = true)
    ∧ (∀ db0, emptyGrown db0 db → emptyGrown db0 db₂) := by
  intro entries
  induction entries with
  | nil =>
    intro db add db₂ site h
    cases h
    exact ⟨fun n hn => hn, fun p hp => absurd hp (List.not_mem_nil p),
      fun ha => ha, fun db0 hg => hg⟩
  | cons e rest ih =>
    intro db add db₂ site h
    simp only [tablesLoop] at h
    cases hstep : tableStep r now stidU e.1.1 e.1.2 e.2 db with
    | error err => rw [hstep] at h; simp [bind, Except.bind] at h
    | ok st =>
      rw [hstep] at h
      simp only [bind, Except.bind] at h
      obtain ⟨mono2, creates2, add2, eg2⟩ := ih st.1 (add || st.2) db₂ site h
      have hstep' : tableStep r now stidU e.1.1 e.1.2 e.2 db = .ok (st.1, st.2) := by
        rw [hstep]
      refine ⟨?_, ?_, ?_, ?_⟩
      · intro n hn
        exact mono2 n (tableStep_names_mono hstep' n hn)
      · intro p hp
        rcases List.mem_cons.mp hp with rfl | hp2
        · exact mono2 _ (tableStep_self_mem hstep')
        · exact creates2 p hp2
      · intro ha
        subst ha
        exact add2 rfl
      · intro db0 hg
        exact eg2 db0 (tableStep_emptyGrown hstep' hg)

/-- `date_keys` has one entry per schema entry. -/
theorem dateKeysLoop_length :
    ∀ {schema : Schema} {dks : List String},
      dateKeysLoop schema = .ok dks → schema.length = dks.length := by
  intro schema
  induction schema with
  | nil => intro dks h; cases h; rfl
  | cons e rest ih =>
    intro dks h
    simp only [dateKeysLoop] at h
    cases he : e.2.head? with
    | none => rw [he] at h; cases h
    | some c =>
      rw [he] at h
      cases hrest : dateKeysLoop rest with
      | error err => rw [hrest] at h; simp [bind, Except.bind] at h
      | ok more =>
        rw [hrest] at h
        simp only [bind, Except.bind, pure, Except.pure] at h
        cases h
        simpa using ih hrest

/-- A member of the left list of a `zip` of equal-length lists appears in
the zip with some partner. -/
theorem mem_zip_left {α β : Type} :
    ∀ (l1 : List α) (l2 : List β) (a : α), a ∈ l1 → l1.length = l2.length →
      ∃ b, (a, b) ∈ l1.zip l2 := by
  intro l1
  induction l1 with
  | nil => intro l2 a ha; cases ha
  | cons x xs ih =>
    intro l2 a ha hl
    cases l2 with
    | nil => simp at hl
    | cons y ys =>
      rcases List.mem_cons.mp ha with rfl | ha2
      · exact ⟨y, List.mem_cons_self _ _⟩
      · obtain ⟨b, hb⟩ := ih ys a ha2 (by simpa using hl)
        exact ⟨b, List.mem_cons_of_mem _ hb⟩

/-- The bundled facts of one station's `db.init` step. -/
theorem stationStep_facts {r : Bool} {now : Int} {schema : Schema}
    {stid : String} {db db₂ : DbState} {site : Bool}
    (h : stationStep r now schema stid db = .ok (db₂, site)) :
    (∀ n ∈ tableNames db, n ∈ tableNames db₂)
    ∧ (∀ e ∈ schema, pyToUpper stid ++ "_" ++ e.1 ∈ tableNames db₂)
    ∧ (∀ db0, emptyGrown db0 db → emptyGrown db0 db₂) := by
  simp only [stationStep] at h
  cases hdk : dateKeysLoop schema with
  | error err => rw [hdk] at h; simp [bind, Except.bind] at h
  | ok dks =>
    rw [hdk] at h
    simp only [bind, Except.bind] at h
    obtain ⟨mono, creates, _, eg⟩ :=
      tablesLoop_facts r now (pyToUpper stid) (schema.zip dks) db false db₂ site h
    refine ⟨mono, ?_, eg⟩
    intro e he
    obtain ⟨dk, hmem⟩ := mem_zip_left schema dks e he (dateKeysLoop_length hdk)
    exact creates (e, dk) hmem

/-- If the station's first schema table has only empty instances in the
database, the station step reports the station for backfill. -/
theorem stationStep_site_true {r : Bool} {now : Int} {e0 : String × SchemaPairs}
    {srest : Schema} {stid : String} {db db₂ : DbState} {site : Bool}
    (h : stationStep r now (e0 :: srest) stid db = .ok (db₂, site))
    (hemp : ∀ tb ∈ db, tb.name = pyToUpper stid ++ "_" ++ e0.1 → tb.rows = []) :
    site = true := by
  simp only [stationStep] at h
  cases hdk : dateKeysLoop (e0 :: srest) with
  | error err => rw [hdk] at h; simp [bind, Except.bind] at h
  | ok dks =>
    rw [hdk] at h
    simp only [bind, Except.bind] at h
    cases dks with
    | nil => exact absurd (dateKeysLoop_length hdk) (by simp)
    | cons dk0 dkrest =>
      simp only [List.zip_cons_cons, tablesLoop] at h
      cases hstep : tableStep r now (pyToUpper stid) e0.1 e0.2 dk0 db with
      | error err => rw [hstep] at h; simp [bind, Except.bind] at h
      | ok st =>
        rw [hstep] at h
        simp only [bind, Except.bind] at h
        have htrig : st.2 = true :=
          tableStep_trig_true (by rw [hstep]) hemp
        obtain ⟨_, _, add2, _⟩ :=
          tablesLoop_facts r now (pyToUpper stid) (srest.zip dkrest) st.1
            (false || st.2) db₂ site h
        exact add2 (by rw [htrig]; rfl)

/-- The bundled facts of `db.init`'s station loop: names grow, every
station's schema tables exist afterwards, recorded backfill stations are
kept and stay duplicate-free, the `emptyGrown` invariant is preserved, and a
station whose first schema table is absent from the baseline is recorded. -/
theorem stationsLoop_facts (r : Bool) (now : Int) (schema : Schema) (db0 : DbState) :
    ∀ (stations : List String) (db : DbState) (sites : List String)
      (db₂ : DbState) (sites₂ : List String),
    stationsLoop r now schema stations db sites = .ok (db₂, sites₂) →
    emptyGrown db0 db →
    (∀ n ∈ tableNames db, n ∈ tableNames db₂)
    ∧ (∀ st ∈ stations, ∀ e ∈ schema, pyToUpper st ++ "_" ++ e.1 ∈ tableNames db₂)
    ∧ (∀ x ∈ sites, x ∈ sites₂)
    ∧ (sites.Nodup → sites₂.Nodup)
    ∧ emptyGrown db0 db₂
    ∧ (∀ st ∈ stations, ∀ e0 srest, schema = e0 :: srest →
        (∀ tb ∈ db0, tb.name ≠ pyToUpper st ++ "_" ++ e0.1) → st ∈ sites₂) := by
  intro stations
  induction stations with
  | nil =>
    intro db sites db₂ sites₂ h heg
    cases h
    exact ⟨fun n hn => hn, fun st hst => absurd hst (List.not_mem_nil st),
      fun x hx => hx, fun hn => hn, heg,
      fun st hst => absurd hst (List.not_mem_nil st)⟩
  | cons st0 rest ih =>
    intro db sites db₂ sites₂ h heg
    simp only [stationsLoop] at h
    cases hstep : stationStep r now schema st0 db with
    | error err => rw [hstep] at h; simp [bind, Except.bind] at h
    | ok sres =>
      rw [hstep] at h
      simp only [bind, Except.bind] at h
      have hstep' : stationStep r now schema st0 db = .ok (sres.1, sres.2) := by
        rw [hstep]
      obtain ⟨mono1, creates1, eg1⟩ := stationStep_facts hstep'
      obtain ⟨mono2, creates2, mem2, nodup2, eg2, added2⟩ :=
        ih sres.1 _ db₂ sites₂ h (eg1 db0 heg)
      have hmem' : ∀ x ∈ sites,
          x ∈ (if sres.2 && !(sites.contains st0) then sites ++ [st0] else sites) := by
        intro x hx
        by_cases hb : (sres.2 && !(sites.contains st0)) = true
        · rw [if_pos hb]; exact List.mem_append_left _ hx
        · rw [if_neg hb]; exact hx
      refine ⟨?_, ?_, ?_, ?_, eg2, ?_⟩
      · intro n hn
        exact mono2 n (mono1 n hn)
      · intro st hst e he
        rcases List.mem_cons.mp hst with rfl | hst2
        · exact mono2 _ (creates1 e he)
        · exact creates2 st hst2 e he
      · intro x hx
        exact mem2 x (hmem' x hx)
      · intro hnd
        refine nodup2 ?_
        by_cases hb : (sres.2 && !(sites.contains st0)) = true
        · rw [if_pos hb]
          have hcont : sites.contains st0 = false := by
            rcases Bool.and_eq_true_iff.mp hb with ⟨_, hnc⟩
            simpa using hnc
          have hnotmem : st0 ∉ sites := by
            intro hm
            have h1 : sites.contains st0 = true := List.elem_eq_true_of_mem hm
            rw [h1] at hcont
            cases hcont
          exact List.Nodup.append hnd (List.nodup_singleton st0)
            (fun a ha hb2 => hnotmem ((List.mem_singleton.mp hb2) ▸ ha))
        · rw [if_neg hb]; exact hnd
      · intro st hst e0 srest hsch hdb0
        rcases List.mem_cons.mp hst with rfl | hst2
        · have hemp : ∀ tb ∈ db, tb.name = pyToUpper st ++ "_" ++ e0.1 → tb.rows = [] := by
            intro tb htb hname
            rcases heg tb htb with h0 | hr
            · exact absurd hname (hdb0 tb h0)
            · exact hr
          have hsite : sres.2 = true := by
            subst hsch
            exact stationStep_site_true hstep' hemp
          by_cases hcont : sites.contains st = true
          · have : st ∈ sites := List.mem_of_elem_eq_true hcont
            exact mem2 st (hmem' st this)
          · have hcb : sites.contains st = false := by
              cases hcb2 : sites.contains st
              · rfl
              · exact absurd hcb2 hcont
            have hb : (sres.2 && !(sites.contains st)) = true := by
              rw [hsite, hcb]
              rfl
            refine mem2 st ?_
            rw [if_pos hb]
            exact List.mem_append_right _ (List.mem_singleton_self st)
        · exact added2 st hst2 e0 srest hsch hdb0

/-- A Bool that is not true is false. -/
theorem boolNotTrue {b : Bool} (h : ¬ b = true) : b = false := by
  cases b
  · rfl
  · exact absurd rfl h

/-- `dbGet` after `dbSet` on the same name. -/
theorem dbGet_dbSet_self :
    ∀ (env : DbEnv) (name : String) (db : DbState),
      dbGet (dbSet env name db) name = db := by
  intro env
  induction env with
  | nil => intro name db; simp [dbSet, dbGet]
  | cons p rest ih =>
    intro name db
    by_cases hp : (p.1 == name) = true
    · simp [dbSet, hp, dbGet]
    · simp only [dbSet, hp, Bool.false_eq_true, if_false]
      simp only [dbGet, List.find?]
      rw [boolNotTrue hp]
      exact ih name db

/-- `dbGet` after `dbSet` on a different name. -/
theorem dbGet_dbSet_ne :
    ∀ (env : DbEnv) (name name' : String) (db : DbState), name' ≠ name →
      dbGet (dbSet env name db) name' = dbGet env name' := by
  intro env
  induction env with
  | nil =>
    intro name name' db hne
    have hq : (name == name') = false :=
      boolNotTrue (fun hx => hne ((by simpa using hx : name = name')).symm)
    simp only [dbSet, dbGet, List.find?, hq]
  | cons p rest ih =>
    intro name name' db hne
    have hq : (name == name') = false :=
      boolNotTrue (fun hx => hne ((by simpa using hx : name = name')).symm)
    by_cases hp : (p.1 == name) = true
    · have hp' : p.1 = name := by simpa using hp
      have hq2 : (p.1 == name') = false := by rw [hp']; exact hq
      simp only [dbSet, hp, if_true, dbGet, List.find?, hq, hq2]
    · simp only [dbSet, hp, Bool.false_eq_true, if_false, dbGet, List.find?]
      cases hq3 : (p.1 == name')
      · exact ih name name' db hne
      · rfl

/-- Per-database `emptyGrown` over a whole environment. -/
def envEmptyGrown (env0 env : DbEnv) : Prop :=
  ∀ name, emptyGrown (dbGet env0 name) (dbGet env name)

/-- The bundled facts of `db.init`'s data-binding loop. -/
theorem bindingsLoop_facts (cfg : Config) (r : Bool) (now : Int) (env0 : DbEnv) :
    ∀ (bindings : List (String × BindingCfg)) (env : DbEnv)
      (sites : List String) (env₂ : DbEnv) (sites₂ : List String),
    bindingsLoop cfg r now bindings env sites = .ok (env₂, sites₂) →
    envEmptyGrown env0 env →
    (∀ name, ∀ n ∈ tableNames (dbGet env name), n ∈ tableNames (dbGet env₂ name))
    ∧ (∀ p ∈ bindings, ∀ st ∈ cfg.stations, ∀ e ∈ p.2.schema,
        pyToUpper st ++ "_" ++ e.1 ∈ tableNames (dbGet env₂ p.2.database))
    ∧ (∀ x ∈ sites, x ∈ sites₂)
    ∧ (sites.Nodup → sites₂.Nodup)
    ∧ (∀ p ∈ bindings, ∀ st ∈ cfg.stations, ∀ e0 srest, p.2.schema = e0 :: srest →
        (∀ tb ∈ dbGet env0 p.2.database, tb.name ≠ pyToUpper st ++ "_" ++ e0.1) →
        st ∈ sites₂) := by
  intro bindings
  induction bindings with
  | nil =>
    intro env sites env₂ sites₂ h hEG
    cases h
    exact ⟨fun name n hn => hn, fun p hp => absurd hp (List.not_mem_nil p),
      fun x hx => hx, fun hn => hn,
      fun p hp => absurd hp (List.not_mem_nil p)⟩
  | cons pb rest ih =>
    intro env sites env₂ sites₂ h hEG
    simp only [bindingsLoop] at h
    by_cases hcon : connectionOk cfg pb.2.database = true
    · rw [if_pos hcon] at h
      cases hsl : stationsLoop r now pb.2.schema cfg.stations (dbGet env pb.2.database) sites with
      | error err => rw [hsl] at h; simp [bind, Except.bind] at h
      | ok slr =>
        rw [hsl] at h
        simp only [bind, Except.bind] at h
        have hsl' : stationsLoop r now pb.2.schema cfg.stations
            (dbGet env pb.2.database) sites = .ok (slr.1, slr.2) := by rw [hsl]
        obtain ⟨mono1, creates1, mem1, nodup1, eg1, added1⟩ :=
          stationsLoop_facts r now pb.2.schema (dbGet env0 pb.2.database)
            cfg.stations (dbGet env pb.2.database) sites slr.1 slr.2 hsl'
            (hEG pb.2.database)
        have hEG' : envEmptyGrown env0 (dbSet env pb.2.database slr.1) := by
          intro name
          by_cases hn : name = pb.2.database
          · subst hn; rw [dbGet_dbSet_self]; exact eg1
          · rw [dbGet_dbSet_ne env pb.2.database name slr.1 hn]; exact hEG name
        obtain ⟨mono2, creates2, mem2, nodup2, added2⟩ :=
          ih (dbSet env pb.2.database slr.1) slr.2 env₂ sites₂ h hEG'
        have monoX : ∀ name, ∀ n ∈ tableNames (dbGet env name),
            n ∈ tableNames (dbGet (dbSet env pb.2.database slr.1) name) := by
          intro name n hn
          by_cases hq : name = pb.2.database
          · subst hq; rw [dbGet_dbSet_self]; exact mono1 n hn
          · rw [dbGet_dbSet_ne env pb.2.database name slr.1 hq]; exact hn
        refine ⟨?_, ?_, ?_, ?_, ?_⟩
        · intro name n hn
          exact mono2 name n (monoX name n hn)
        · intro p hp st hst e he
          rcases List.mem_cons.mp hp with rfl | hp2
          · refine mono2 p.2.database _ ?_
            rw [dbGet_dbSet_self]
            exact creates1 st hst e he
          · exact creates2 p hp2 st hst e he
        · intro x hx
          exact mem2 x (mem1 x hx)
        · intro hnd
          exact nodup2 (nodup1 hnd)
        · intro p hp st hst e0 srest hsch hdb0
          rcases List.mem_cons.mp hp with rfl | hp2
          · exact mem2 st (added1 st hst e0 srest hsch hdb0)
          · exact added2 p hp2 st hst e0 srest hsch hdb0
    · rw [if_neg hcon] at h
      cases h

/-- C8: when `db.init` succeeds for a config whose station `stid` has no
physical table in any binding's database, afterwards every declared
table-type exists as the physical table `STID_TABLETYPE` in that binding's
database, `stid` is in the returned backfill list (provided some binding
declares at least one table-type), and the returned list holds no station id
twice. -/
theorem c8_fresh_station_backfill (cfg : Config) (reset_old : Bool) (now : Int)
    (env : DbEnv) (sites : List String) (env₂ : DbEnv) (stid : String)
    (h1 : dbInit cfg reset_old now env = .ok (sites, env₂))
    (h2 : stid ∈ cfg.stations)
    (h3 : ∀ p ∈ cfg.dataBindings, ∀ tb ∈ dbGet env p.2.database,
        ∀ e ∈ p.2.schema, tb.name ≠ pyToUpper stid ++ "_" ++ e.1)
    (h4 : ∃ p ∈ cfg.dataBindings, p.2.schema ≠ []) :
    (∀ p ∈ cfg.dataBindings, ∀ e ∈ p.2.schema,
        pyToUpper stid ++ "_" ++ e.1 ∈ tableNames (dbGet env₂ p.2.database))
    ∧ stid ∈ sites ∧ sites.Nodup := by
  simp only [dbInit] at h1
  cases hb : bindingsLoop cfg reset_old now cfg.dataBindings env [] with
  | error err => rw [hb] at h1; simp [bind, Except.bind] at h1
  | ok rr =>
    rw [hb] at h1
    simp only [bind, Except.bind, pure, Except.pure] at h1
    cases h1
    have hb' : bindingsLoop cfg reset_old now cfg.dataBindings env []
        = .ok (rr.1, rr.2) := by rw [hb]
    obtain ⟨mono, creates, _, nodup, added⟩ :=
      bindingsLoop_facts cfg reset_old now env cfg.dataBindings env [] rr.1 rr.2
        hb' (fun name => emptyGrown_refl _)
    refine ⟨?_, ?_, nodup List.nodup_nil⟩
    · intro p hp e he
      exact creates p hp stid h2 e he
    · obtain ⟨p, hp, hne⟩ := h4
      cases hsch : p.2.schema with
      | nil => exact absurd hsch hne
      | cons e0 srest =>
        refine added p hp stid h2 e0 srest hsch ?_
        intro tb htb
        exact h3 p hp tb htb e0 (by rw [hsch]; exact List.mem_cons_self _ _)

/-- Witness for C8: a station with no tables at all (`env = []`), run through
`db.init`, ends with both forecast tables existing and `KSEA` reported once
for backfill. -/
theorem c8_witness :
    (∀ p ∈ cfgA.dataBindings, ∀ e ∈ p.2.schema,
        pyToUpper "KSEA" ++ "_" ++ e.1 ∈ tableNames (dbGet envA p.2.database))
    ∧ "KSEA" ∈ ["KSEA"] ∧ (["KSEA"] : List String).Nodup :=
  c8_fresh_station_backfill cfgA true t2020 [] ["KSEA"] envA "KSEA"
    (by rfl) (by decide)
    (by intro p hp tb htb e he; simp [dbGet] at htb)
    ⟨("forecast", bindA), List.mem_singleton_self _, by simp [bindA]⟩
